import Mathlib

/-!
Verification of the SAP CAP application-builder agent pipeline
(`backend/agents/*` of the repository) against its design specification.

The development shallowly embeds the orchestration-relevant Python code:

* `backend/agents/validator.py` — the pattern-based artifact validators
  (`validate_cds`, `validate_javascript`, `validate_best_practices`) and
  the `ValidationResult` / `ValidationIssue` data types;
* `backend/agents/correction.py` — `should_retry_agent` and
  `format_correction_summary`;
* `backend/agents/state.py` — the `BuilderState` fields that the
  orchestration logic reads or writes (generation-content fields that are
  only interpolated into prompts or template text are not modelled);
* `backend/agents/requirements.py`, `data_modeling.py`,
  `service_exposure.py`, `business_logic.py`, `fiori_ui.py`,
  `security.py`, `extension.py`, `deployment.py`, `validation.py` — the
  agent step functions.  Each agent's LLM/template generation phase is an
  external effect; it is abstracted by an explicit oracle argument that
  carries the phase's outputs (success flag, produced files, errors and
  log messages).  Everything downstream of the generation phase —
  prerequisite checks, validation, the retry/self-healing decisions and
  every state update — is embedded concretely from the source.
* `backend/agents/graph.py` — the LangGraph routing
  (`should_continue_after_requirements`, the per-agent retry edges) and
  the `run_generation_workflow` wrapper, as a fuel-bounded driver.
* `backend/agents/progress.py` — the per-session progress-queue registry.

Conventions: Python dicts keyed by strings become association lists;
wall-clock timestamps (`datetime.utcnow()`), logging to the process
logger, and `duration_ms` fields are not modelled; Python `\w`, `\s`,
`isupper`, `isalpha`, `isalnum` are modelled at ASCII precision (all
strings the pipeline manipulates are ASCII).
-/

/-! ### Character classes and low-level string scanning

Python regular-expression fragments used by `validator.py` are embedded
as structurally recursive scanners over `List Char`.  The patterns in the
source contain no genuine backtracking: every `\s*`/`\w+` is followed by
a character that is neither a space nor a word character, so the greedy
reading below is exact.
-/

/-- ASCII reading of the regex class `\w` (letters, digits, underscore). -/
def isWordChar (c : Char) : Bool := c.isAlphanum || c == '_'

/-- ASCII reading of the regex class `\s` (space, tab, newline, carriage
return, vertical tab, form feed). -/
def isSpaceChar (c : Char) : Bool :=
  c == ' ' || c == '\t' || c == '\n' || c == '\r' || c == '\x0b' || c == '\x0c'

/-- Drop a leading run of `\s` characters (`\s*`). -/
def dropSpaces (cs : List Char) : List Char := cs.dropWhile isSpaceChar

/-- Match a literal prefix, returning the rest of the input on success. -/
def stripLit : List Char → List Char → Option (List Char)
  | cs, [] => some cs
  | [], _ :: _ => none
  | c :: cs, l :: ls => if c == l then stripLit cs ls else none

/-- Count occurrences of a single character (Python `str.count` with a
one-character needle). -/
def countChar (cs : List Char) (c : Char) : Nat := cs.countP (· == c)

/-- Helper for `countSub`: the `Nat` argument is the number of positions
still covered by the previous match (matches may not overlap). -/
def countSubAux (needle : List Char) : List Char → Nat → Nat
  | [], _ => 0
  | c :: cs, 0 =>
    match stripLit (c :: cs) needle with
    | some _ => 1 + countSubAux needle cs (needle.length - 1)
    | none => countSubAux needle cs 0
  | _ :: cs, k + 1 => countSubAux needle cs k

/-- Count non-overlapping occurrences of a needle, scanning left to right
(Python `str.count` with a multi-character needle). -/
def countSub (cs needle : List Char) : Nat :=
  if needle.isEmpty then cs.length + 1 else countSubAux needle cs 0

/-- Whether the needle occurs anywhere in the haystack (Python `in`). -/
def containsSub : List Char → List Char → Bool
  | cs, needle =>
    match cs with
    | [] => needle.isEmpty
    | c :: rest => (stripLit (c :: rest) needle).isSome || containsSub rest needle

/-- Index of the first occurrence of the needle (Python `str.find`,
`none` for the `-1` case). -/
def findSub : List Char → List Char → Option Nat
  | cs, needle =>
    match cs with
    | [] => if needle.isEmpty then some 0 else none
    | c :: rest =>
      if (stripLit (c :: rest) needle).isSome then some 0
      else (findSub rest needle).map (· + 1)

/-- Python `content.split("\n")`: always at least one piece, keeps empty
pieces. -/
def splitLines : List Char → List (List Char)
  | [] => [[]]
  | c :: cs =>
    if c == '\n' then [] :: splitLines cs
    else
      match splitLines cs with
      | [] => [[c]]
      | l :: ls => (c :: l) :: ls

/-- Anchored match of `^\s*entity\s+\w+\s*\{` (the entity-definition
opener checked line by line in `validate_cds`). -/
def matchEntityOpen (cs : List Char) : Bool :=
  match stripLit (dropSpaces cs) "entity".data with
  | none => false
  | some rest =>
    match rest with
    | [] => false
    | c :: rest2 =>
      isSpaceChar c &&
        (match dropSpaces rest2 with
         | [] => false
         | d :: rest3 =>
           isWordChar d &&
             (match dropSpaces (rest3.dropWhile isWordChar) with
              | b :: _ => b == Char.ofNat 123
              | [] => false))

/-- Match of `entity\s+\w+` anchored at the head of the input. -/
def matchEntityAt (cs : List Char) : Bool :=
  match stripLit cs "entity".data with
  | none => false
  | some [] => false
  | some (c :: rest) =>
    isSpaceChar c &&
      (match dropSpaces rest with
       | d :: _ => isWordChar d
       | [] => false)

/-- Unanchored search for `entity\s+\w+` (the NO_ENTITIES check of
`validate_cds`, `re.search` over the whole content). -/
def searchEntityWord : List Char → Bool
  | [] => false
  | c :: cs => matchEntityAt (c :: cs) || searchEntityWord cs

/-- Anchored match of `:\s*(\w+)\s*;`, returning the captured `\w+`. -/
def matchColonTypeAt (cs : List Char) : Option (List Char) :=
  match cs with
  | ':' :: rest =>
    let rest2 := dropSpaces rest
    let word := rest2.takeWhile isWordChar
    if word.isEmpty then none
    else
      match dropSpaces (rest2.dropWhile isWordChar) with
      | ';' :: _ => some word
      | _ => none
  | _ => none

/-- Leftmost search for `:\s*(\w+)\s*;` on one line (the type-annotation
check of `validate_cds`), returning the first captured type name. -/
def findColonType : List Char → Option (List Char)
  | [] => none
  | c :: cs =>
    match matchColonTypeAt (c :: cs) with
    | some w => some w
    | none => findColonType cs

/-! ### `validator.py`: data types -/

/-- `validator.ValidationSeverity`. -/
inductive ValidationSeverity
  | error
  | warning
  | info
deriving DecidableEq, Repr

/-- `ValidationSeverity.value` (the string payload of the Python enum). -/
def ValidationSeverity.value : ValidationSeverity → String
  | .error => "error"
  | .warning => "warning"
  | .info => "info"

/-- `validator.ValidationIssue`. -/
structure ValidationIssue where
  severity : ValidationSeverity
  message : String
  line : Option Nat := none
  column : Option Nat := none
  code : Option String := none
  suggestion : Option String := none
deriving DecidableEq, Repr

/-- `validator.ValidationResult`. -/
structure ValidationResult where
  is_valid : Bool
  issues : List ValidationIssue
  artifact_path : String
  validator_type : String
deriving DecidableEq, Repr

/-- `ValidationResult.has_errors`. -/
def ValidationResult.has_errors (r : ValidationResult) : Bool :=
  r.issues.any (fun i => i.severity == ValidationSeverity.error)

/-- `ValidationResult.error_count`. -/
def ValidationResult.error_count (r : ValidationResult) : Nat :=
  r.issues.countP (fun i => i.severity == ValidationSeverity.error)

/-- `ValidationResult.warning_count`. -/
def ValidationResult.warning_count (r : ValidationResult) : Nat :=
  r.issues.countP (fun i => i.severity == ValidationSeverity.warning)

/-! ### `validator.validate_cds` -/

/-- The `valid_types` list of `validate_cds`. -/
def cdsValidTypes : List String :=
  ["String", "Integer", "Decimal", "Boolean", "Date", "DateTime", "Time",
   "UUID", "LargeString", "Binary", "LargeBinary", "Double", "Int16",
   "Int32", "Int64"]

/-- The INVALID_TYPE warning of `validate_cds`. -/
def invalidTypeIssue (cdsType : String) (lineNum : Nat) : ValidationIssue :=
  { severity := .warning,
    message := "Potentially invalid CDS type '" ++ cdsType ++
      "'. Common types: String, Integer, Decimal, Boolean, Date",
    line := some lineNum,
    code := some "INVALID_TYPE" }

/-- One iteration of the per-line loop of `validate_cds`: the `continue`
statements for entity openers with unclosed braces and for lines with
unmatched braces, then the type-annotation check. -/
def cdsLineIssues (lineNum : Nat) (line : List Char) : List ValidationIssue :=
  if matchEntityOpen line && countChar line (Char.ofNat 123) > countChar line (Char.ofNat 125) then
    []
  else if countChar line (Char.ofNat 123) != countChar line (Char.ofNat 125) then
    []
  else
    match findColonType line with
    | none => []
    | some w =>
      let cdsType := String.mk w
      if !(cdsValidTypes.contains cdsType) && !(w.headD 'a').isUpper then
        [invalidTypeIssue cdsType lineNum]
      else
        []

/-- `validator.validate_cds` (pattern-based CDS validation). -/
def validate_cds (content : String) (path : String := "schema.cds") : ValidationResult :=
  let lines := splitLines content.data
  let loopIssues := (lines.enum.map (fun p => cdsLineIssues (p.1 + 1) p.2)).flatten
  let issues := loopIssues
    ++ (if !(containsSub content.data "namespace".data) then
          [{ severity := .warning,
             message := "Missing namespace declaration. Consider adding 'namespace com.company.app;'",
             line := some 1,
             code := some "MISSING_NAMESPACE" : ValidationIssue }]
        else [])
    ++ (if !(searchEntityWord content.data) then
          [{ severity := .error,
             message := "No entity definitions found in CDS schema",
             line := some 1,
             code := some "NO_ENTITIES" : ValidationIssue }]
        else [])
  { is_valid := !(issues.any (fun i => i.severity == ValidationSeverity.error)),
    issues := issues,
    artifact_path := path,
    validator_type := "cds" }


/-! ### `validator.validate_javascript` -/

/-- Python `content[:content.find(line)]`: the text before the first
occurrence of `line` (`content[:-1]` in the impossible `-1` case). -/
def textBeforeSub (content line : List Char) : List Char :=
  match findSub content line with
  | some i => content.take i
  | none => content.dropLast

/-- One iteration of the per-line loop of `validate_javascript`: the
unclosed-quote parity checks and the `await`-outside-`async` check (the
parenthesis check in the source appends nothing). -/
def jsLineIssues (content : List Char) (lineNum : Nat) (line : List Char) :
    List ValidationIssue :=
  let singleQuotes := countChar line '\'' - countSub line "\\'".data
  let doubleQuotes := countChar line '"' - countSub line "\\\"".data
  (if singleQuotes % 2 != 0 then
     [{ severity := .error, message := "Unclosed string (single quote)",
        line := some lineNum, code := some "UNCLOSED_STRING" : ValidationIssue }]
   else [])
  ++ (if doubleQuotes % 2 != 0 then
        [{ severity := .error, message := "Unclosed string (double quote)",
           line := some lineNum, code := some "UNCLOSED_STRING" : ValidationIssue }]
      else [])
  ++ (if containsSub line "await".data &&
         !(containsSub (textBeforeSub content line) "async".data) then
        [{ severity := .error, message := "'await' used outside async function",
           line := some lineNum, code := some "AWAIT_NON_ASYNC" : ValidationIssue }]
      else [])

/-- `validator.validate_javascript` (pattern-based JavaScript validation). -/
def validate_javascript (content : String) (path : String := "service.js") :
    ValidationResult :=
  let cs := content.data
  let lines := splitLines cs
  let loopIssues := (lines.enum.map (fun p => jsLineIssues cs (p.1 + 1) p.2)).flatten
  let issues := loopIssues
    ++ (if !(containsSub cs "module.exports".data) && !(containsSub cs "export".data) then
          [{ severity := .warning,
             message := "Missing module.exports or export statement",
             line := some 1, code := some "NO_EXPORT" : ValidationIssue }]
        else [])
  { is_valid := !(issues.any (fun i => i.severity == ValidationSeverity.error)),
    issues := issues,
    artifact_path := path,
    validator_type := "javascript" }

/-! ### `validator.validate_best_practices` -/

/-- The alternatives of `(password|secret|api[_-]?key)` (lower-case; the
search is case-insensitive). -/
def credKeywords : List (List Char) :=
  ["password".data, "secret".data, "api_key".data, "api-key".data, "apikey".data]

/-- Anchored match of `(password|secret|api[_-]?key)\s*[:=]\s*["\'](?!.*\$\{)`
on an already lower-cased line: keyword, optional spaces, `:` or `=`,
optional spaces, a quote, and no `${` in the rest of the line. -/
def matchCredAt (cs : List Char) : Bool :=
  credKeywords.any (fun kw =>
    match stripLit cs kw with
    | none => false
    | some rest =>
      match dropSpaces rest with
      | [] => false
      | c :: rest2 =>
        (c == ':' || c == '=') &&
          (match dropSpaces rest2 with
           | [] => false
           | q :: rest3 =>
             (q == '"' || q == '\'') && !(containsSub rest3 "$\x7b".data)))

/-- Unanchored, case-insensitive search for the hardcoded-credentials
pattern on one line. -/
def searchCred : List Char → Bool
  | [] => false
  | c :: cs => matchCredAt (c :: cs) || searchCred cs

/-- One iteration of the per-line loop of `validate_best_practices`. -/
def bpLineIssues (fileType : String) (lineNum : Nat) (line : List Char) :
    List ValidationIssue :=
  (if searchCred (line.map Char.toLower) then
     [{ severity := .error,
        message := "Hardcoded credentials detected. Use environment variables instead.",
        line := some lineNum, code := some "HARDCODED_CREDENTIALS",
        suggestion := some "Use process.env.VAR_NAME or $\x7benv:VAR_NAME\x7d" : ValidationIssue }]
   else [])
  ++ (if fileType == "javascript" && containsSub line "console.log".data then
        [{ severity := .warning,
           message := "Avoid console.log in production. Use cds.log() instead.",
           line := some lineNum, code := some "CONSOLE_LOG",
           suggestion := some "Replace with: const LOG = cds.log('service'); LOG.info(...);" : ValidationIssue }]
      else [])

/-- `validator.validate_best_practices`. -/
def validate_best_practices (content : String) (path : String)
    (file_type : String) : ValidationResult :=
  let cs := content.data
  let lines := splitLines cs
  let loopIssues := (lines.enum.map (fun p => bpLineIssues file_type (p.1 + 1) p.2)).flatten
  let issues := loopIssues
    ++ (if file_type == "cds" && containsSub cs "@cds.persistence".data then
          [{ severity := .warning,
             message := "@cds.persistence is deprecated. Consider using table-based approach.",
             code := some "DEPRECATED_ANNOTATION" : ValidationIssue }]
        else [])
  { is_valid := !(issues.any (fun i => i.severity == ValidationSeverity.error)),
    issues := issues,
    artifact_path := path,
    validator_type := "best_practices" }

/-! ### `validator.validate_artifact`, specialised

`validate_artifact` dispatches on the file extension.  The agents
modelled below invoke it only at the literal paths `db/schema.cds`,
`srv/service.cds` (the `.cds` branch) and `srv/service.js` (the `.js`
branch); these two specialisations are the corresponding results.  The
`.json` branch (used by the Fiori-UI and deployment agents) requires a
JSON parser and is abstracted by those agents' oracles instead.
-/

/-- `validate_artifact` at a `.cds` path. -/
def validate_artifact_cds (path content : String) : List ValidationResult :=
  [validate_cds content path, validate_best_practices content path "cds"]

/-- `validate_artifact` at a `.js` path. -/
def validate_artifact_js (path content : String) : List ValidationResult :=
  [validate_javascript content path, validate_best_practices content path "javascript"]


/-! ### `state.py`: the shared workflow state

Only the fields read or written by the orchestration logic are modelled;
pure generation-content fields (entity field types, relationships,
business rules, Fiori/CAP/deployment configuration flags) feed prompt or
template text only and are carried by the generation oracles.  Timestamp
fields (`created_at`, `updated_at`, `started_at`, `completed_at`,
`generation_started_at`, `generation_completed_at`, `duration_ms`) are
not modelled.
-/

/-- `state.ValidationError` (the agent-level issue dict). -/
structure ValidationError where
  agent : String
  code : String
  message : String
  field : Option String
  severity : String
deriving DecidableEq, Repr

instance : Inhabited ValidationError := ⟨⟨"", "", "", none, ""⟩⟩

/-- `state.GeneratedFile`. -/
structure GeneratedFile where
  path : String
  content : String
  file_type : String
deriving DecidableEq, Repr

/-- An entity field, restricted to the parts the requirements validation
reads (`field.get("key", False)`). -/
structure FieldDef where
  name : String
  key : Bool := false
deriving DecidableEq, Repr

/-- An entity definition, restricted to the parts the requirements
validation reads (`entity.get("name", "")`, `entity.get("fields", [])`). -/
structure EntityDef where
  name : String
  fields : List FieldDef := []
deriving DecidableEq, Repr

instance : Inhabited EntityDef := ⟨⟨"", []⟩⟩

/-- `state.AgentExecution`, as the agents actually build it (the
self-healing agents add a `retry_count` key; timestamps and
`duration_ms` are not modelled).  `logs` snapshots `current_logs` at the
moment the record is appended. -/
structure AgentExecution where
  agent_name : String
  status : String
  error : Option String
  retry_count : Option Nat := none
  logs : List String
deriving DecidableEq, Repr

/-- One entry of `state["correction_history"]` (timestamp not modelled). -/
structure CorrectionRecord where
  agent : String
  retry : Nat
  errors_found : Nat
deriving DecidableEq, Repr

/-- One entry of `state["auto_fixed_errors"]` (timestamp not modelled). -/
structure AutoFixRecord where
  agent : String
  summary : String
deriving DecidableEq, Repr

/-- The `BuilderState` dict.  Keys that `state.create_initial_state`
always populates are plain fields; `needs_correction`, `retry_counts`,
`correction_history` and `auto_fixed_errors` are created on demand in the
source and default here to the value Python's `.get` default produces
(falsy / empty).  `artifacts_security` and `artifacts_ext` are written by
the security and extension agents although `BuilderState` in `state.py`
does not declare them (it is a `total=False` TypedDict). -/
structure BuilderState where
  session_id : String := ""
  project_name : String := ""
  project_namespace : String := ""
  project_description : String := ""
  domain_type : String := "custom"
  entities : List EntityDef := []
  fiori_main_entity : String := ""
  current_agent : String := ""
  current_logs : List String := []
  agent_history : List AgentExecution := []
  validation_errors : List ValidationError := []
  retry_counts : List (String × Nat) := []
  needs_correction : Bool := false
  correction_history : List CorrectionRecord := []
  auto_fixed_errors : List AutoFixRecord := []
  artifacts_db : List GeneratedFile := []
  artifacts_srv : List GeneratedFile := []
  artifacts_app : List GeneratedFile := []
  artifacts_security : List GeneratedFile := []
  artifacts_ext : List GeneratedFile := []
  artifacts_deployment : List GeneratedFile := []
  artifacts_docs : List GeneratedFile := []
  generation_status : String := "pending"
deriving DecidableEq, Repr

instance : Inhabited BuilderState := ⟨{}⟩

/-- Python `state.get("retry_counts", {}).get(stage, 0)`. -/
def getRC : List (String × Nat) → String → Nat
  | [], _ => 0
  | p :: rest, stage => if p.1 == stage then p.2 else getRC rest stage

/-- Python `state["retry_counts"][stage] = v` (dict assignment on an
association list). -/
def setRC : List (String × Nat) → String → Nat → List (String × Nat)
  | [], stage, v => [(stage, v)]
  | p :: rest, stage, v =>
    if p.1 == stage then (stage, v) :: rest else p :: setRC rest stage v

/-- `state.create_initial_state` restricted to the modelled fields.  The
namespace default is `com.company.` followed by the lower-cased project
name with hyphens replaced by underscores. -/
def create_initial_state (session_id project_name : String)
    (project_namespace : String := "") (project_description : String := "") :
    BuilderState :=
  { session_id := session_id,
    project_name := project_name,
    project_namespace :=
      if project_namespace != "" then project_namespace
      else "com.company." ++
        String.mk (project_name.data.map (fun c => if c == '-' then '_' else c.toLower)),
    project_description := project_description,
    domain_type := "custom",
    entities := [],
    fiori_main_entity := "",
    current_agent := "",
    agent_history := [],
    validation_errors := [],
    artifacts_db := [], artifacts_srv := [], artifacts_app := [],
    artifacts_deployment := [], artifacts_docs := [],
    generation_status := "pending" }

/-! ### `progress.py`: the per-session queue registry

The module-level `_queues` dict becomes an association list from session
id to queue contents (an `asyncio.Queue` observed as the list of events
it holds, oldest first).  Events carry the fields `log_progress` sets;
the wall-clock timestamp is not modelled.
-/

/-- A progress event (`type`, `agent`, `message`; `type` is a reserved
word in Lean, hence `etype`). -/
structure ProgressEvent where
  etype : String
  agent : String := ""
  message : String := ""
deriving DecidableEq, Repr

/-- The `_queues` registry. -/
abbrev QueueRegistry := List (String × List ProgressEvent)

/-- Python `_queues.get(session_id)`. -/
def getQueue : QueueRegistry → String → Option (List ProgressEvent)
  | [], _ => none
  | p :: rest, session_id =>
    if p.1 == session_id then some p.2 else getQueue rest session_id

/-- Dict assignment `_queues[session_id] = q` on the registry. -/
def setQueue : QueueRegistry → String → List ProgressEvent → QueueRegistry
  | [], sid, q => [(sid, q)]
  | p :: rest, sid, q =>
    if p.1 == sid then (sid, q) :: rest else p :: setQueue rest sid q

/-- `progress.create_progress_queue`: registers a fresh empty queue under
the session id (a plain dict assignment) and returns it. -/
def create_progress_queue (qs : QueueRegistry) (session_id : String) :
    QueueRegistry × List ProgressEvent :=
  (setQueue qs session_id [], [])

/-- `progress.remove_progress_queue` (`_queues.pop(session_id, None)`). -/
def remove_progress_queue (qs : QueueRegistry) (session_id : String) :
    QueueRegistry :=
  (qs : List (String × List ProgressEvent)).filter (fun p => p.1 != session_id)

/-- `progress.push_event`: enqueue into the session's queue if one is
registered, otherwise do nothing. -/
def push_event (qs : QueueRegistry) (session_id : String) (event : ProgressEvent) :
    QueueRegistry :=
  match getQueue qs session_id with
  | none => qs
  | some q => setQueue qs session_id (q ++ [event])

/-- The state half of `progress.log_progress`: append the message to
`state["current_logs"]` (creating the key if absent). -/
def log_progress_state (s : BuilderState) (message : String) : BuilderState :=
  { s with current_logs := s.current_logs ++ [message] }

/-- `progress.log_progress`: always appends the message to the state's
`current_logs`, and additionally enqueues an `agent_log` event when a
queue is registered for the state's session id (`put_nowait`; the
swallowed queue-full exception cannot occur on an unbounded queue). -/
def log_progress (qs : QueueRegistry) (s : BuilderState) (message : String) :
    QueueRegistry × BuilderState :=
  let s2 := log_progress_state s message
  match getQueue qs s2.session_id with
  | none => (qs, s2)
  | some q =>
    (setQueue qs s2.session_id
      (q ++ [{ etype := "agent_log", agent := s2.current_agent, message := message }]), s2)

/-! ### `correction.py`: the retry controller -/

/-- `correction.should_retry_agent`: no retry once `retry_count` has
reached `max_retries`; otherwise retry exactly when some validation
result has errors. -/
def should_retry_agent (validation_results : List ValidationResult)
    (retry_count : Nat) (max_retries : Nat := 3) : Bool :=
  if retry_count ≥ max_retries then false
  else if !(validation_results.any (fun r => r.has_errors)) then false
  else true

/-- `correction.format_correction_summary`. -/
def format_correction_summary (agent_name : String)
    (original_errors fixed_errors retry_count : Nat) : String :=
  let status :=
    if fixed_errors == original_errors then "✅ All errors fixed"
    else if fixed_errors > 0 then
      "⚠️ " ++ toString fixed_errors ++ "/" ++ toString original_errors ++ " errors fixed"
    else "❌ Could not fix errors"
  agent_name ++ ": " ++ status ++ " (after " ++ toString retry_count ++
    " attempt" ++ (if retry_count == 1 then "" else "s") ++ ")"

/-- The Error-severity issues of a list of validation results, in
iteration order (`for result in validation_results: for issue in
result.issues: if issue.severity.value == "error"`). -/
def errorIssues (rs : List ValidationResult) : List ValidationIssue :=
  (rs.map (fun r => r.issues.filter (fun i => i.severity.value == "error"))).flatten

/-- Python `issue.code or "VALIDATION_ERROR"` (`or` takes the default on
`None` and on the empty string). -/
def codeOrDefault (code : Option String) : String :=
  match code with
  | none => "VALIDATION_ERROR"
  | some c => if c == "" then "VALIDATION_ERROR" else c

/-- The downgrade performed by the self-healing agents once retries are
exhausted: each remaining Error issue becomes a Warning-severity
`ValidationError` attributed to the agent. -/
def downgradedErrors (agent : String) (rs : List ValidationResult) :
    List ValidationError :=
  (errorIssues rs).map (fun i =>
    { agent := agent, code := codeOrDefault i.code, message := i.message,
      field := none, severity := "warning" })

/-- `sum(r.error_count for r in validation_results)`. -/
def totalErrorCount (rs : List ValidationResult) : Nat :=
  (rs.map (fun r => r.error_count)).sum

/-- The per-issue log lines the self-healing agents emit on a retry
(`log_progress(state, f"  - {issue.message}")` over the Error issues). -/
def logErrorIssues (rs : List ValidationResult) (s : BuilderState) : BuilderState :=
  (errorIssues rs).foldl (fun st i => log_progress_state st ("  - " ++ i.message)) s

/-! ### `requirements.py`: validation helpers -/

/-- `requirements.validate_project_name`. -/
def validate_project_name (name : String) : List ValidationError :=
  if name == "" then
    [{ agent := "requirements", code := "PROJECT_NAME_REQUIRED",
       message := "Project name is required",
       field := some "project_name", severity := "error" }]
  else
    (if name.data.length < 3 then
       [{ agent := "requirements", code := "PROJECT_NAME_TOO_SHORT",
          message := "Project name must be at least 3 characters",
          field := some "project_name", severity := "error" : ValidationError }]
     else [])
    ++ (if name.data.length > 50 then
          [{ agent := "requirements", code := "PROJECT_NAME_TOO_LONG",
             message := "Project name must be 50 characters or less",
             field := some "project_name", severity := "error" : ValidationError }]
        else [])
    ++ (if !(name.data.headD ' ').isAlpha then
          [{ agent := "requirements", code := "PROJECT_NAME_INVALID_START",
             message := "Project name must start with a letter",
             field := some "project_name", severity := "error" : ValidationError }]
        else [])
    ++ (if !(name.data.all (fun c => c.isAlphanum || c == '-' || c == '_' || c == ' ')) then
          [{ agent := "requirements", code := "PROJECT_NAME_INVALID_CHARS",
             message := "Project name can only contain letters, numbers, spaces, hyphens, and underscores",
             field := some "project_name", severity := "error" : ValidationError }]
        else [])

/-- `requirements.validate_entity_name`. -/
def validate_entity_name (name : String) : List ValidationError :=
  if name == "" then
    [{ agent := "requirements", code := "ENTITY_NAME_REQUIRED",
       message := "Entity name is required",
       field := some "entity_name", severity := "error" }]
  else
    (if !(name.data.headD ' ').isUpper then
       [{ agent := "requirements", code := "ENTITY_NAME_NOT_PASCAL_CASE",
          message := "Entity name '" ++ name ++ "' must start with uppercase (PascalCase)",
          field := some "entity_name", severity := "warning" : ValidationError }]
     else [])
    ++ (if !(name.data.all Char.isAlphanum) then
          [{ agent := "requirements", code := "ENTITY_NAME_INVALID_CHARS",
             message := "Entity name '" ++ name ++ "' can only contain letters and numbers",
             field := some "entity_name", severity := "error" : ValidationError }]
        else [])

/-- The loop body of `requirements.validate_entities`; the `List String`
argument is the `entity_names` set accumulated so far. -/
def validate_entities_loop : List EntityDef → List String → List ValidationError
  | [], _ => []
  | e :: rest, seen =>
    (if seen.contains e.name then
       [{ agent := "requirements", code := "DUPLICATE_ENTITY_NAME",
          message := "Duplicate entity name: " ++ e.name,
          field := some "entities", severity := "error" : ValidationError }]
     else [])
    ++ validate_entity_name e.name
    ++ (if !(e.fields.any (fun f => f.key)) then
          [{ agent := "requirements", code := "NO_KEY_FIELD",
             message := "Entity '" ++ e.name ++ "' must have at least one key field",
             field := some "entities", severity := "error" : ValidationError }]
        else [])
    ++ validate_entities_loop rest (e.name :: seen)

/-- `requirements.validate_entities`. -/
def validate_entities (entities : List EntityDef) : List ValidationError :=
  if entities.isEmpty then
    [{ agent := "requirements", code := "NO_ENTITIES",
       message := "At least one entity must be defined",
       field := some "entities", severity := "error" }]
  else validate_entities_loop entities []

/-! ### Generation oracles

Each agent's generation phase calls the external LLM (with deterministic
template fallback) and is abstracted by an oracle value recording what
the phase produced.  Claims proved for every oracle value in particular
cover every behaviour the concrete generation code can produce.
-/

/-- Outcome of a generation phase: `llm_success` flag, the
`generated_files` list as it stands when the validation section is
reached, the `errors` entries appended during generation, and the
`log_progress` messages emitted during generation. -/
structure GenOutcome where
  llm_success : Bool := false
  generated_files : List GeneratedFile := []
  gen_errors : List ValidationError := []
  gen_logs : List String := []

/-- Outcome of the Step-2 domain processing of `requirements_agent`
(template import, LLM field generation with fallback, user-entity
validation, or LLM entity extraction): the resulting `entities` list,
the branch's appended errors, and its log messages. -/
structure ReqStep2Outcome where
  entities : List EntityDef := []
  extra_errors : List ValidationError := []
  logs : List String := []

/-- Outcome of the Fiori-UI generation phase.  `vr_manifest` abstracts
`validate_artifact` on the generated `manifest.json` (the `.json` branch
parses JSON and is not embedded). -/
structure FioriOutcome where
  llm_success : Bool := false
  generated_files : List GeneratedFile := []
  gen_errors : List ValidationError := []
  gen_logs : List String := []
  vr_manifest : List ValidationResult := []

/-- Outcome of the deployment generation phase.  `vr_package` and
`vr_mta` abstract `validate_artifact` on `package.json` and `mta.yaml`. -/
structure DepOutcome where
  llm_success : Bool := false
  generated_files : List GeneratedFile := []
  gen_errors : List ValidationError := []
  gen_logs : List String := []
  vr_package : List ValidationResult := []
  vr_mta : List ValidationResult := []

/-- Outcome of the validation agent's LLM call and rule-based checks:
the parsed LLM `validation_results` entries, the rule-based errors from
`validation.py`'s internal `validate_artifact`, the emitted log
messages, and the compliance-report content. -/
structure ValOutcome where
  llm_success : Bool := false
  llm_results : List ValidationError := []
  rule_errors : List ValidationError := []
  logs : List String := []
  report : String := ""

/-! ### `requirements.requirements_agent` -/

/-- `requirements_agent` (gate stage).  Step 2 (domain processing) is
abstracted by the oracle; all validation and bookkeeping is concrete.
Note that both exits *assign* `validation_errors` to this agent's own
`errors` list instead of appending to the accumulated list. -/
def requirements_agent (o : ReqStep2Outcome) (s0 : BuilderState) : BuilderState :=
  let s1 := { s0 with current_agent := "requirements", current_logs := [] }
  let s1 := log_progress_state s1 "Analyzing project configuration..."
  let errs0 := validate_project_name s1.project_name
  if errs0.any (fun e => e.severity == "error") then
    let s2 := { s1 with validation_errors := errs0 }
    log_progress_state s2 ("Validation failed: " ++ (errs0.headD default).message)
  else
    let s2 := { s1 with entities := o.entities,
                        current_logs := s1.current_logs ++ o.logs }
    let s2 := log_progress_state s2 "Performing final validation..."
    let errs := errs0 ++ o.extra_errors ++ validate_entities s2.entities
    let s3 :=
      if s2.fiori_main_entity == "" && !s2.entities.isEmpty then
        { s2 with fiori_main_entity := (s2.entities.headD default).name }
      else s2
    let s4 := { s3 with
      validation_errors := errs,
      agent_history := s3.agent_history ++ [{
        agent_name := "requirements",
        status := if !(errs.any (fun e => e.severity == "error")) then "completed" else "failed",
        error := if errs.isEmpty then none else some (errs.headD default).message,
        logs := s3.current_logs }] }
    log_progress_state s4 "Requirements analysis complete."

/-! ### `data_modeling.data_modeling_agent` -/

/-- The state-update epilogue of `data_modeling_agent` (from the
`state["needs_correction"] = False` line onward): note that
`artifacts_db` is *replaced* by this attempt's files. -/
def dmFinish (llm_success : Bool) (errs : List ValidationError)
    (files : List GeneratedFile) (rc : Nat) (s : BuilderState) : BuilderState :=
  let s := { s with needs_correction := false,
                    artifacts_db := files,
                    validation_errors := s.validation_errors ++ errs }
  let s := { s with agent_history := s.agent_history ++ [{
    agent_name := "data_modeling",
    status := if !(errs.any (fun e => e.severity == "error")) then "completed" else "failed",
    error := if errs.isEmpty then none else some (errs.headD default).message,
    retry_count := some rc,
    logs := s.current_logs }] }
  log_progress_state s ("Data modeling phase complete (" ++
    (if llm_success then "LLM" else "template fallback") ++ "). Generated " ++
    toString files.length ++ " files.")

/-- `data_modeling_agent` (self-healing stage).  Validates the generated
`db/schema.cds` when the LLM succeeded; a retry decision increments the
retry counter, records a correction attempt, clears `artifacts_db` and
returns early — before any `agent_history` record is appended. -/
def data_modeling_agent (o : GenOutcome) (s0 : BuilderState) : BuilderState :=
  let s1 := { s0 with current_agent := "data_modeling", current_logs := [] }
  let s1 := log_progress_state s1 "Starting data modeling phase..."
  if s1.entities.isEmpty then
    let s2 := log_progress_state s1 "Error: No entities found to process."
    let errs := [{ agent := "data_modeling", code := "NO_ENTITIES",
                   message := "No entities to process. Requirements agent must run first.",
                   field := some "entities", severity := "error" : ValidationError }]
    { s2 with validation_errors := s2.validation_errors ++ errs }
  else
    let s2 := { s1 with current_logs := s1.current_logs ++ o.gen_logs }
    let errs := o.gen_errors
    let retry_count := getRC s2.retry_counts "data_modeling"
    match o.generated_files.find? (fun f => f.path == "db/schema.cds"), o.llm_success with
    | some art, true =>
      let vr := validate_artifact_cds "db/schema.cds" art.content
      if vr.any (fun r => r.has_errors) then
        if should_retry_agent vr retry_count 3 then
          let s3 := log_progress_state s2
            ("Validation found errors. Attempting correction (retry " ++
             toString (retry_count + 1) ++ "/3)...")
          let s3 := { s3 with
            retry_counts := setRC s3.retry_counts "data_modeling" (retry_count + 1),
            needs_correction := true,
            correction_history := s3.correction_history ++
              [{ agent := "data_modeling", retry := retry_count + 1,
                 errors_found := totalErrorCount vr }] }
          let s3 := logErrorIssues vr s3
          let s3 := { s3 with artifacts_db := [] }
          log_progress_state s3 "Preparing to retry with corrections..."
        else
          let s3 := log_progress_state s2 "⚠️ Max retries reached. Some validation errors remain."
          dmFinish o.llm_success (errs ++ downgradedErrors "data_modeling" vr)
            o.generated_files retry_count s3
      else
        let s3 :=
          if retry_count > 0 then
            let s4 := log_progress_state s2
              ("✅ Validation passed after " ++ toString retry_count ++ " correction(s)")
            { s4 with auto_fixed_errors := s4.auto_fixed_errors ++
                [{ agent := "data_modeling",
                   summary := format_correction_summary "data_modeling"
                     retry_count retry_count retry_count }] }
          else log_progress_state s2 "✅ Validation passed on first attempt"
        dmFinish o.llm_success errs o.generated_files retry_count s3
    | _, _ => dmFinish o.llm_success errs o.generated_files retry_count s2

/-! ### `service_exposure.service_exposure_agent` -/

/-- The state-update epilogue of `service_exposure_agent`: unlike the
data-modeling agent it *appends* to `artifacts_srv`. -/
def seFinish (llm_success : Bool) (errs : List ValidationError)
    (files : List GeneratedFile) (rc : Nat) (s : BuilderState) : BuilderState :=
  let s := { s with needs_correction := false,
                    artifacts_srv := s.artifacts_srv ++ files,
                    validation_errors := s.validation_errors ++ errs }
  let s := { s with agent_history := s.agent_history ++ [{
    agent_name := "service_exposure",
    status := if !(errs.any (fun e => e.severity == "error")) then "completed" else "failed",
    error := none,
    retry_count := some rc,
    logs := s.current_logs }] }
  log_progress_state s ("Service exposure phase complete (" ++
    (if llm_success then "LLM" else "template fallback") ++ ").")

/-- `service_exposure_agent` (self-healing stage).  Validates the
generated `srv/service.cds`; a retry clears the whole `artifacts_srv`
list and returns early. -/
def service_exposure_agent (o : GenOutcome) (s0 : BuilderState) : BuilderState :=
  let s1 := { s0 with current_agent := "service_exposure", current_logs := [] }
  let s1 := log_progress_state s1 "Starting service exposure phase..."
  if s1.entities.isEmpty then
    let s2 := log_progress_state s1 "Error: No entities found for service exposure."
    { s2 with validation_errors := s2.validation_errors ++ [] }
  else
    let s2 := { s1 with current_logs := s1.current_logs ++ o.gen_logs }
    let errs := o.gen_errors
    let retry_count := getRC s2.retry_counts "service_exposure"
    match o.generated_files.find? (fun f => f.path == "srv/service.cds"), o.llm_success with
    | some art, true =>
      let vr := validate_artifact_cds "srv/service.cds" art.content
      if vr.any (fun r => r.has_errors) then
        if should_retry_agent vr retry_count 3 then
          let s3 := log_progress_state s2
            ("Validation found errors. Attempting correction (retry " ++
             toString (retry_count + 1) ++ "/3)...")
          let s3 := { s3 with
            retry_counts := setRC s3.retry_counts "service_exposure" (retry_count + 1),
            needs_correction := true,
            correction_history := s3.correction_history ++
              [{ agent := "service_exposure", retry := retry_count + 1,
                 errors_found := totalErrorCount vr }] }
          let s3 := logErrorIssues vr s3
          { s3 with artifacts_srv := [] }
        else
          let s3 := log_progress_state s2 "⚠️ Max retries reached. Some validation errors remain."
          seFinish o.llm_success (errs ++ downgradedErrors "service_exposure" vr)
            o.generated_files retry_count s3
      else
        let s3 :=
          if retry_count > 0 then
            let s4 := log_progress_state s2
              ("✅ Validation passed after " ++ toString retry_count ++ " correction(s)")
            { s4 with auto_fixed_errors := s4.auto_fixed_errors ++
                [{ agent := "service_exposure",
                   summary := format_correction_summary "service_exposure"
                     retry_count retry_count retry_count }] }
          else log_progress_state s2 "✅ Validation passed on first attempt"
        seFinish o.llm_success errs o.generated_files retry_count s3
    | _, _ => seFinish o.llm_success errs o.generated_files retry_count s2

/-! ### `business_logic.business_logic_agent` -/

/-- The state-update epilogue of `business_logic_agent` (appends to
`artifacts_srv`). -/
def blFinish (llm_success : Bool) (errs : List ValidationError)
    (files : List GeneratedFile) (rc : Nat) (s : BuilderState) : BuilderState :=
  let s := { s with needs_correction := false,
                    artifacts_srv := s.artifacts_srv ++ files,
                    validation_errors := s.validation_errors ++ errs }
  let s := { s with agent_history := s.agent_history ++ [{
    agent_name := "business_logic",
    status := if !(errs.any (fun e => e.severity == "error")) then "completed" else "failed",
    error := none,
    retry_count := some rc,
    logs := s.current_logs }] }
  log_progress_state s ("Business logic generation complete (" ++
    (if llm_success then "LLM" else "template fallback") ++ ").")

/-- `business_logic_agent` (self-healing stage).  Validates the
generated `srv/service.js`; a retry sets `artifacts_srv` to the empty
list — wiping the service-exposure artifacts too — and returns early. -/
def business_logic_agent (o : GenOutcome) (s0 : BuilderState) : BuilderState :=
  let s1 := { s0 with current_agent := "business_logic", current_logs := [] }
  let s1 := log_progress_state s1 "Starting business logic generation..."
  if s1.entities.isEmpty then
    let s2 := log_progress_state s1 "Error: No entities for handler generation."
    let errs := [{ agent := "business_logic", code := "NO_ENTITIES",
                   message := "No entities for handler generation",
                   field := some "entities", severity := "error" : ValidationError }]
    { s2 with validation_errors := s2.validation_errors ++ errs }
  else
    let s2 := { s1 with current_logs := s1.current_logs ++ o.gen_logs }
    let errs := o.gen_errors
    let retry_count := getRC s2.retry_counts "business_logic"
    match o.generated_files.find? (fun f => f.path == "srv/service.js"), o.llm_success with
    | some art, true =>
      let vr := validate_artifact_js "srv/service.js" art.content
      if vr.any (fun r => r.has_errors) then
        if should_retry_agent vr retry_count 3 then
          let s3 := log_progress_state s2
            ("Validation found errors. Attempting correction (retry " ++
             toString (retry_count + 1) ++ "/3)...")
          let s3 := { s3 with
            retry_counts := setRC s3.retry_counts "business_logic" (retry_count + 1),
            needs_correction := true,
            correction_history := s3.correction_history ++
              [{ agent := "business_logic", retry := retry_count + 1,
                 errors_found := totalErrorCount vr }] }
          let s3 := logErrorIssues vr s3
          { s3 with artifacts_srv := [] }
        else
          let s3 := log_progress_state s2 "⚠️ Max retries reached. Some validation errors remain."
          blFinish o.llm_success (errs ++ downgradedErrors "business_logic" vr)
            o.generated_files retry_count s3
      else
        let s3 :=
          if retry_count > 0 then
            let s4 := log_progress_state s2
              ("✅ Validation passed after " ++ toString retry_count ++ " correction(s)")
            { s4 with auto_fixed_errors := s4.auto_fixed_errors ++
                [{ agent := "business_logic",
                   summary := format_correction_summary "business_logic"
                     retry_count retry_count retry_count }] }
          else log_progress_state s2 "✅ Validation passed on first attempt"
        blFinish o.llm_success errs o.generated_files retry_count s3
    | _, _ => blFinish o.llm_success errs o.generated_files retry_count s2

/-! ### `fiori_ui.fiori_ui_agent` -/

/-- Python `path.endswith(suffix)`: the last `len(suffix)` characters
equal the suffix (a shorter string yields a shorter take, so equality
fails). -/
def strEndsWith (s suffix : String) : Bool :=
  (s.data.reverse.take suffix.data.length).reverse == suffix.data

/-- The state-update epilogue of `fiori_ui_agent` (appends to
`artifacts_app`). -/
def fioFinish (llm_success : Bool) (errs : List ValidationError)
    (files : List GeneratedFile) (rc : Nat) (s : BuilderState) : BuilderState :=
  let s := { s with needs_correction := false,
                    artifacts_app := s.artifacts_app ++ files,
                    validation_errors := s.validation_errors ++ errs }
  let s := { s with agent_history := s.agent_history ++ [{
    agent_name := "fiori_ui",
    status := if !(errs.any (fun e => e.severity == "error")) then "completed" else "failed",
    error := none,
    retry_count := some rc,
    logs := s.current_logs }] }
  log_progress_state s ("Fiori UI generation complete (" ++
    (if llm_success then "LLM" else "template fallback") ++ ").")

/-- The generation / validation / self-healing core of
`fiori_ui_agent`, shared by the two entry paths (main entity already
set, or defaulted to the first entity's name). -/
def fioMain (o : FioriOutcome) (s1 : BuilderState) : BuilderState :=
  let s2 := { s1 with current_logs := s1.current_logs ++ o.gen_logs }
  let errs := o.gen_errors
  let retry_count := getRC s2.retry_counts "fiori_ui"
  match o.generated_files.find? (fun f => strEndsWith f.path "manifest.json"), o.llm_success with
  | some _, true =>
    let vr := o.vr_manifest
    if vr.any (fun r => r.has_errors) then
      if should_retry_agent vr retry_count 3 then
        let s3 := log_progress_state s2
          ("Validation found errors. Attempting correction (retry " ++
           toString (retry_count + 1) ++ "/3)...")
        let s3 := { s3 with
          retry_counts := setRC s3.retry_counts "fiori_ui" (retry_count + 1),
          needs_correction := true,
          correction_history := s3.correction_history ++
            [{ agent := "fiori_ui", retry := retry_count + 1,
               errors_found := totalErrorCount vr }] }
        let s3 := logErrorIssues vr s3
        { s3 with artifacts_app := [] }
      else
        let s3 := log_progress_state s2 "⚠️ Max retries reached. Some validation errors remain."
        fioFinish o.llm_success (errs ++ downgradedErrors "fiori_ui" vr)
          o.generated_files retry_count s3
    else
      let s3 :=
        if retry_count > 0 then
          let s4 := log_progress_state s2
            ("✅ Validation passed after " ++ toString retry_count ++ " correction(s)")
          { s4 with auto_fixed_errors := s4.auto_fixed_errors ++
              [{ agent := "fiori_ui",
                 summary := format_correction_summary "fiori_ui"
                   retry_count retry_count retry_count }] }
        else log_progress_state s2 "✅ Validation passed on first attempt"
      fioFinish o.llm_success errs o.generated_files retry_count s3
  | _, _ => fioFinish o.llm_success errs o.generated_files retry_count s2

/-- `fiori_ui_agent` (self-healing stage).  The validation of the
generated `manifest.json` goes through `validate_artifact`'s `.json`
branch, abstracted by the oracle's `vr_manifest`. -/
def fiori_ui_agent (o : FioriOutcome) (s0 : BuilderState) : BuilderState :=
  let s1 := { s0 with current_agent := "fiori_ui", current_logs := [] }
  let s1 := log_progress_state s1 "Starting Fiori UI generation..."
  if s1.fiori_main_entity == "" then
    if s1.entities.isEmpty then
      let s2 := log_progress_state s1 "Error: No entities found for Fiori UI generation."
      let errs := [{ agent := "fiori_ui", code := "NO_MAIN_ENTITY",
                     message := "No main entity specified",
                     field := some "fiori_main_entity", severity := "error" : ValidationError }]
      { s2 with validation_errors := s2.validation_errors ++ errs }
    else
      fioMain o { s1 with fiori_main_entity := (s1.entities.headD default).name }
  else
    fioMain o s1

/-! ### `security.security_agent` and `extension.extension_agent`

Neither agent has a validation / self-healing section: they never touch
`needs_correction` or `retry_counts`. -/

/-- `security_agent`: generation (abstracted), then append artifacts,
errors and a history record. -/
def security_agent (o : GenOutcome) (s0 : BuilderState) : BuilderState :=
  let s1 := { s0 with current_agent := "security", current_logs := [] }
  let s1 := log_progress_state s1 "Starting security configuration generation..."
  let s2 := { s1 with current_logs := s1.current_logs ++ o.gen_logs }
  let s3 := { s2 with artifacts_security := s2.artifacts_security ++ o.generated_files,
                      validation_errors := s2.validation_errors ++ o.gen_errors }
  let s4 := { s3 with agent_history := s3.agent_history ++ [{
    agent_name := "security",
    status := if !(o.gen_errors.any (fun e => e.severity == "error")) then "completed" else "failed",
    error := none,
    logs := s3.current_logs }] }
  log_progress_state s4 ("Security configuration complete (" ++
    (if o.llm_success then "LLM" else "template fallback") ++ ").")

/-- `extension_agent`: generation (abstracted), then append artifacts,
errors and a history record. -/
def extension_agent (o : GenOutcome) (s0 : BuilderState) : BuilderState :=
  let s1 := { s0 with current_agent := "extension", current_logs := [] }
  let s1 := log_progress_state s1 "Starting extension point generation..."
  let s2 := { s1 with current_logs := s1.current_logs ++ o.gen_logs }
  let s3 := { s2 with artifacts_ext := s2.artifacts_ext ++ o.generated_files,
                      validation_errors := s2.validation_errors ++ o.gen_errors }
  let s4 := { s3 with agent_history := s3.agent_history ++ [{
    agent_name := "extension",
    status := if !(o.gen_errors.any (fun e => e.severity == "error")) then "completed" else "failed",
    error := none,
    logs := s3.current_logs }] }
  log_progress_state s4 ("Extension generation complete (" ++
    (if o.llm_success then "LLM" else "template fallback") ++ ").")

/-! ### `deployment.deployment_agent` -/

/-- The state-update epilogue of `deployment_agent` (appends to
`artifacts_deployment`). -/
def depFinish (llm_success : Bool) (errs : List ValidationError)
    (files : List GeneratedFile) (rc : Nat) (s : BuilderState) : BuilderState :=
  let s := { s with needs_correction := false,
                    artifacts_deployment := s.artifacts_deployment ++ files,
                    validation_errors := s.validation_errors ++ errs }
  let s := { s with agent_history := s.agent_history ++ [{
    agent_name := "deployment",
    status := if !(errs.any (fun e => e.severity == "error")) then "completed" else "failed",
    error := none,
    retry_count := some rc,
    logs := s.current_logs }] }
  log_progress_state s ("Deployment configuration complete (" ++
    (if llm_success then "LLM" else "template fallback") ++ ").")

/-- The retry branch shared by the two critical files of
`deployment_agent`. -/
def depRetry (vr : List ValidationResult) (rc : Nat) (s : BuilderState) : BuilderState :=
  let s := log_progress_state s
    ("Attempting correction (retry " ++ toString (rc + 1) ++ "/3)...")
  let s : BuilderState := { s with
    retry_counts := setRC s.retry_counts "deployment" (rc + 1),
    needs_correction := true,
    correction_history := s.correction_history ++
      [{ agent := "deployment", retry := rc + 1, errors_found := totalErrorCount vr }] }
  { s with artifacts_deployment := [] }

/-- `deployment_agent` (self-healing stage).  Validates the two critical
files `package.json` and `mta.yaml` in order (their `validate_artifact`
results abstracted by the oracle); the first failing file that still has
retries left triggers the retry return. -/
def deployment_agent (o : DepOutcome) (s0 : BuilderState) : BuilderState :=
  let s1 := { s0 with current_agent := "deployment", current_logs := [] }
  let s1 := log_progress_state s1 "Starting deployment configuration generation..."
  let s2 := { s1 with current_logs := s1.current_logs ++ o.gen_logs }
  let errs := o.gen_errors
  let retry_count := getRC s2.retry_counts "deployment"
  if o.llm_success then
    -- first critical file: package.json
    match o.generated_files.find? (fun f => f.path == "package.json"),
          (o.vr_package.any (fun r => r.has_errors)) with
    | some _, true =>
      let s3 := log_progress_state s2 "Validation failed for package.json"
      if should_retry_agent o.vr_package retry_count 3 then
        depRetry o.vr_package retry_count s3
      else
        let s3 := log_progress_state s3 "⚠️ Max retries reached for package.json. Errors remain."
        -- second critical file: mta.yaml (validation_failed already true)
        match o.generated_files.find? (fun f => f.path == "mta.yaml"),
              (o.vr_mta.any (fun r => r.has_errors)) with
        | some _, true =>
          let s4 := log_progress_state s3 "Validation failed for mta.yaml"
          if should_retry_agent o.vr_mta retry_count 3 then
            depRetry o.vr_mta retry_count s4
          else
            let s4 := log_progress_state s4 "⚠️ Max retries reached for mta.yaml. Errors remain."
            depFinish o.llm_success errs o.generated_files retry_count s4
        | _, _ => depFinish o.llm_success errs o.generated_files retry_count s3
    | _, _ =>
      -- package.json absent or clean; try mta.yaml, tracking validation_failed
      let pkgFailed := (o.generated_files.any (fun f => f.path == "package.json")) &&
        (o.vr_package.any (fun r => r.has_errors))
      match o.generated_files.find? (fun f => f.path == "mta.yaml"),
            (o.vr_mta.any (fun r => r.has_errors)) with
      | some _, true =>
        let s3 := log_progress_state s2 "Validation failed for mta.yaml"
        if should_retry_agent o.vr_mta retry_count 3 then
          depRetry o.vr_mta retry_count s3
        else
          let s3 := log_progress_state s3 "⚠️ Max retries reached for mta.yaml. Errors remain."
          depFinish o.llm_success errs o.generated_files retry_count s3
      | _, _ =>
        -- no critical file failed this pass
        if !pkgFailed then
          let s3 :=
            if retry_count > 0 then
              let s4 := log_progress_state s2
                ("✅ Validation passed after " ++ toString retry_count ++ " correction(s)")
              { s4 with auto_fixed_errors := s4.auto_fixed_errors ++
                  [{ agent := "deployment",
                     summary := format_correction_summary "deployment"
                       retry_count retry_count retry_count }] }
            else log_progress_state s2 "✅ Validation passed on first attempt"
          depFinish o.llm_success errs o.generated_files retry_count s3
        else depFinish o.llm_success errs o.generated_files retry_count s2
  else depFinish o.llm_success errs o.generated_files retry_count s2

/-! ### `validation.validation_agent` -/

/-- `validation_agent` (final stage).  The LLM call and the rule-based
per-artifact checks are abstracted by the oracle; the agent appends the
compliance report to `artifacts_docs`, appends all found errors to
`validation_errors`, and sets `generation_status` from the error count
of *this* agent's findings alone.  (The source's artifact collection
reads the never-written key `artifacts_deploy`, so deployment artifacts
are not among the validated ones.) -/
def validation_agent (o : ValOutcome) (s0 : BuilderState) : BuilderState :=
  let s1 := { s0 with current_agent := "validation", current_logs := [] }
  let s1 := log_progress_state s1 "Starting validation phase..."
  let all_artifacts := s1.artifacts_db ++ s1.artifacts_srv ++ s1.artifacts_app ++
    s1.artifacts_security ++ s1.artifacts_ext
  let s2 :=
    if all_artifacts.isEmpty then
      log_progress_state s1 "Warning: No artifacts found to validate."
    else s1
  let s2 := { s2 with current_logs := s2.current_logs ++ o.logs }
  let all_errors := o.llm_results ++ o.rule_errors
  let error_count := all_errors.countP (fun e => e.severity == "error")
  let s3 : BuilderState := { s2 with
    artifacts_docs := s2.artifacts_docs ++
      [{ path := "docs/COMPLIANCE_REPORT.md", content := o.report, file_type := "md" }],
    validation_errors := s2.validation_errors ++ all_errors,
    generation_status := if error_count == 0 then "completed" else "failed" }
  let s4 : BuilderState := { s3 with agent_history := s3.agent_history ++ [{
    agent_name := "validation",
    status := "completed",
    error := none,
    logs := s3.current_logs }] }
  log_progress_state s4 ("Validation complete (" ++
    (if o.llm_success then "LLM + rules" else "rule-based") ++ "). Errors: " ++
    toString error_count ++ ", Warnings: " ++
    toString (all_errors.countP (fun e => e.severity == "warning")) ++ ".")

/-! ### `graph.py`: routing and the workflow driver -/

/-- The nine pipeline stages, in graph order. -/
inductive Stage
  | requirements
  | data_modeling
  | service_exposure
  | business_logic
  | fiori_ui
  | security
  | extension
  | deployment
  | validation
deriving DecidableEq, Repr

/-- The stage a stage's `continue` edge leads to. -/
def Stage.nextStage : Stage → Option Stage
  | .requirements => some .data_modeling
  | .data_modeling => some .service_exposure
  | .service_exposure => some .business_logic
  | .business_logic => some .fiori_ui
  | .fiori_ui => some .security
  | .security => some .extension
  | .extension => some .deployment
  | .deployment => some .validation
  | .validation => none

/-- The stage's name, as used in `retry_counts` and `agent_history`. -/
def Stage.stageName : Stage → String
  | .requirements => "requirements"
  | .data_modeling => "data_modeling"
  | .service_exposure => "service_exposure"
  | .business_logic => "business_logic"
  | .fiori_ui => "fiori_ui"
  | .security => "security"
  | .extension => "extension"
  | .deployment => "deployment"
  | .validation => "validation"

/-- `graph.should_continue_after_requirements`: `true` means route to
`data_modeling`, `false` means route to `END`. -/
def should_continue_after_requirements (s : BuilderState) : Bool :=
  !(s.validation_errors.any (fun e => e.severity == "error"))

/-- `graph.should_retry_agent` (the routing function, distinct from
`correction.should_retry_agent`): `true` means take the retry self-loop. -/
def graph_should_retry_agent (s : BuilderState) : Bool :=
  s.needs_correction

/-- One oracle per agent invocation; the self-healing agents receive a
stream indexed by the attempt number of the current visit. -/
structure OracleStreams where
  req : ReqStep2Outcome := {}
  dm : Nat → GenOutcome := fun _ => {}
  se : Nat → GenOutcome := fun _ => {}
  bl : Nat → GenOutcome := fun _ => {}
  fio : Nat → FioriOutcome := fun _ => {}
  sec : GenOutcome := {}
  ext : GenOutcome := {}
  dep : Nat → DepOutcome := fun _ => {}
  val : ValOutcome := {}

/-- Run one stage's agent on the state (`k` is the attempt index of the
current visit to this stage). -/
def stepStage (os : OracleStreams) (st : Stage) (k : Nat) (s : BuilderState) :
    BuilderState :=
  match st with
  | .requirements => requirements_agent os.req s
  | .data_modeling => data_modeling_agent (os.dm k) s
  | .service_exposure => service_exposure_agent (os.se k) s
  | .business_logic => business_logic_agent (os.bl k) s
  | .fiori_ui => fiori_ui_agent (os.fio k) s
  | .security => security_agent os.sec s
  | .extension => extension_agent os.ext s
  | .deployment => deployment_agent (os.dep k) s
  | .validation => validation_agent os.val s

/-- The conditional edges of `create_builder_graph`: requirements is a
gate (`end` on any Error-severity issue), every other stage except the
final validation stage has a retry self-loop driven by
`needs_correction`, and validation routes to `END`. -/
def route (st : Stage) (s : BuilderState) : Option Stage :=
  match st with
  | .requirements =>
    if should_continue_after_requirements s then some .data_modeling else none
  | .validation => none
  | _ => if graph_should_retry_agent s then some st else st.nextStage

/-- Fuel-bounded execution of the compiled graph from a given stage.
`none` means the fuel ran out (the concrete pipeline always terminates
within `9 + 5 * 3` steps, but termination is not a claim here). -/
def runFrom (os : OracleStreams) : Nat → Stage → Nat → BuilderState → Option BuilderState
  | 0, _, _, _ => none
  | fuel + 1, st, k, s =>
    let s2 := stepStage os st k s
    match route st s2 with
    | none => some s2
    | some st2 => runFrom os fuel st2 (if st2 = st then k + 1 else 0) s2

/-- `graph.run_generation_workflow` (the non-exceptional path): set
`generation_status` to `in_progress` and run the graph from the
`requirements` entry point. -/
def run_generation_workflow (os : OracleStreams) (fuel : Nat) (s0 : BuilderState) :
    Option BuilderState :=
  runFrom os fuel .requirements 0 { s0 with generation_status := "in_progress" }

/-- The `except` handler of `graph.run_generation_workflow`: when the
graph raises, the caller-held state gets `generation_status = "failed"`
and a single synthetic `WORKFLOW_ERROR` issue carrying the exception
message, and the exception is re-raised. -/
def workflow_exception_state (s0 : BuilderState) (msg : String) : BuilderState :=
  { s0 with
    generation_status := "failed",
    validation_errors := s0.validation_errors ++
      [{ agent := "workflow", code := "WORKFLOW_ERROR", message := msg,
         field := none, severity := "error" }] }

/-! ### Concrete fixtures for witnesses and counterexamples -/

/-- Oracle streams whose every outcome is the default (LLM failure,
nothing produced). -/
def emptyOracles : OracleStreams := {}

/-- An initial state whose empty project name makes the requirements
gate fail with PROJECT_NAME_REQUIRED. -/
def gateS0 : BuilderState := create_initial_state "sess" "" "" ""

/-- A one-entity state satisfying the self-healing agents' entity
prerequisite. -/
def oneEntityS : BuilderState :=
  { entities := [{ name := "Books", fields := [{ name := "ID", key := true }] }] }

/-- A generation outcome whose `db/schema.cds` content "x" fails
`validate_cds` with NO_ENTITIES. -/
def badSchemaO : GenOutcome :=
  { llm_success := true,
    generated_files := [{ path := "db/schema.cds", content := "x", file_type := "cds" }] }

/-- `oneEntityS` with the data-modeling retry counter already at the
maximum. -/
def dmMaxedS : BuilderState :=
  { oneEntityS with retry_counts := [("data_modeling", 3)] }

/-- A generation outcome whose `srv/service.js` content "await x" fails
`validate_javascript` with AWAIT_NON_ASYNC. -/
def badJsO : GenOutcome :=
  { llm_success := true,
    generated_files := [{ path := "srv/service.js", content := "await x", file_type := "js" }] }

/-- A state carrying a service-exposure artifact in `artifacts_srv`,
about to run the business-logic stage. -/
def blPriorS : BuilderState :=
  { entities := [{ name := "Books", fields := [{ name := "ID", key := true }] }],
    artifacts_srv := [{ path := "srv/service.cds", content := "service CatalogService;",
                        file_type := "cds" }] }

/-- A state with one previously recorded issue and an invalid (empty)
project name. -/
def priorIssueS : BuilderState :=
  { project_name := "",
    validation_errors := [{ agent := "security", code := "OLD_ISSUE",
                            message := "previously recorded", field := none,
                            severity := "warning" }] }

/-! ## Supporting lemmas -/

/-- Every issue appended by the per-line loop of `validate_cds` has
Warning severity. -/
lemma cdsLineIssues_warning (n : Nat) (line : List Char) :
    ∀ i ∈ cdsLineIssues n line, i.severity = ValidationSeverity.warning := by
  intro i hi
  unfold cdsLineIssues at hi
  split at hi
  · simp at hi
  · split at hi
    · simp at hi
    · split at hi
      · simp at hi
      · dsimp only at hi
        split at hi
        · simp only [List.mem_singleton] at hi
          subst hi
          rfl
        · simp at hi

/-- Every issue of the per-line loop of `validate_cds`, across all
lines, has Warning severity. -/
lemma cdsLoopIssues_warning (lines : List (List Char)) :
    ∀ i ∈ (lines.enum.map (fun p => cdsLineIssues (p.1 + 1) p.2)).flatten,
      i.severity = ValidationSeverity.warning := by
  intro i hi
  simp only [List.mem_flatten, List.mem_map] at hi
  obtain ⟨l, ⟨p, _, rfl⟩, hil⟩ := hi
  exact cdsLineIssues_warning _ _ i hil

/-- Association-list update then lookup. -/
lemma getRC_setRC (m : List (String × Nat)) (k : String) (v : Nat) (n : String) :
    getRC (setRC m k v) n = if n = k then v else getRC m n := by
  induction m with
  | nil =>
    by_cases h : n = k
    · subst h; simp [getRC, setRC]
    · have hkn : ¬ k = n := fun hh => h hh.symm
      simp [getRC, setRC, beq_iff_eq, hkn, h]
  | cons p rest ih =>
    by_cases hp : p.1 = k
    · by_cases h : n = k
      · subst h; simp [getRC, setRC, beq_iff_eq, hp]
      · have hkn : ¬ k = n := fun hh => h hh.symm
        have hpn : ¬ p.1 = n := fun hh => h (hh.symm.trans hp)
        simp [getRC, setRC, beq_iff_eq, hp, h, hkn, hpn]
    · by_cases hpn : p.1 = n
      · have hnk : ¬ n = k := fun hh => hp (hpn.trans hh)
        simp [getRC, setRC, beq_iff_eq, hp, hpn, hnk]
      · simp only [setRC, beq_iff_eq, hp, if_false]
        simpa [getRC, beq_iff_eq, hpn] using ih

/-- Queue-registry update then lookup. -/
lemma getQueue_setQueue (qs : QueueRegistry) (sid : String)
    (q : List ProgressEvent) (n : String) :
    getQueue (setQueue qs sid q) n = if n = sid then some q else getQueue qs n := by
  induction qs with
  | nil =>
    by_cases h : n = sid
    · subst h; simp [getQueue, setQueue]
    · have hkn : ¬ sid = n := fun hh => h hh.symm
      simp [getQueue, setQueue, beq_iff_eq, hkn, h]
  | cons p rest ih =>
    by_cases hp : p.1 = sid
    · by_cases h : n = sid
      · subst h; simp [getQueue, setQueue, beq_iff_eq, hp]
      · have hkn : ¬ sid = n := fun hh => h hh.symm
        have hpn : ¬ p.1 = n := fun hh => h (hh.symm.trans hp)
        simp [getQueue, setQueue, beq_iff_eq, hp, h, hkn, hpn]
    · by_cases hpn : p.1 = n
      · have hnk : ¬ n = sid := fun hh => hp (hpn.trans hh)
        simp [getQueue, setQueue, beq_iff_eq, hp, hpn, hnk]
      · simp only [setQueue, beq_iff_eq, hp, if_false]
        simpa [getQueue, beq_iff_eq, hpn] using ih

/-- Folding `log_progress_state` over a message list just appends the
messages to `current_logs`. -/
lemma foldl_log_progress_state (l : List String) (s : BuilderState) :
    l.foldl log_progress_state s = { s with current_logs := s.current_logs ++ l } := by
  induction l generalizing s with
  | nil => simp
  | cons a t ih =>
    simp only [List.foldl_cons, log_progress_state, ih, List.append_assoc,
      List.singleton_append]

/-- `logErrorIssues` only appends to `current_logs`. -/
lemma logErrorIssues_eq (rs : List ValidationResult) (s : BuilderState) :
    logErrorIssues rs s =
      { s with current_logs :=
          s.current_logs ++ (errorIssues rs).map (fun i => "  - " ++ i.message) } := by
  unfold logErrorIssues
  rw [show (fun (st : BuilderState) (i : ValidationIssue) =>
        log_progress_state st ("  - " ++ i.message)) =
      (fun st i => log_progress_state st ((fun j : ValidationIssue => "  - " ++ j.message) i))
    from rfl]
  rw [← List.foldl_map (fun j : ValidationIssue => "  - " ++ j.message) log_progress_state]
  exact foldl_log_progress_state _ s

/-- A positive retry decision implies the counter is still below the
bound. -/
lemma should_retry_agent_lt (vr : List ValidationResult) (rc : Nat)
    (h : should_retry_agent vr rc 3 = true) : rc < 3 := by
  by_contra hge
  push_neg at hge
  simp [should_retry_agent, show rc ≥ 3 from hge] at h

/-- Retry-ledger effect of one `data_modeling_agent` invocation: the
counters are untouched, or the agent's own counter is bumped by one on a
retry decision. -/
lemma data_modeling_retry_counts (o : GenOutcome) (s : BuilderState) :
    (data_modeling_agent o s).retry_counts = s.retry_counts
    ∨ ((data_modeling_agent o s).needs_correction = true
       ∧ (data_modeling_agent o s).retry_counts =
           setRC s.retry_counts "data_modeling" (getRC s.retry_counts "data_modeling" + 1)
       ∧ getRC s.retry_counts "data_modeling" < 3) := by
  unfold data_modeling_agent
  dsimp only
  split
  · left; simp [log_progress_state]
  · split
    · split
      · split
        · next hretry =>
          right
          refine ⟨?_, ?_, should_retry_agent_lt _ _ hretry⟩
          · simp [log_progress_state, logErrorIssues_eq]
          · simp [log_progress_state, logErrorIssues_eq]
        · left; simp [dmFinish, log_progress_state]
      · left
        split
        · simp [dmFinish, log_progress_state]
        · simp [dmFinish, log_progress_state]
    · left; simp [dmFinish, log_progress_state]

/-- Retry-ledger effect of one `service_exposure_agent` invocation. -/
lemma service_exposure_retry_counts (o : GenOutcome) (s : BuilderState) :
    (service_exposure_agent o s).retry_counts = s.retry_counts
    ∨ ((service_exposure_agent o s).needs_correction = true
       ∧ (service_exposure_agent o s).retry_counts =
           setRC s.retry_counts "service_exposure" (getRC s.retry_counts "service_exposure" + 1)
       ∧ getRC s.retry_counts "service_exposure" < 3) := by
  unfold service_exposure_agent
  dsimp only
  split
  · left; simp [log_progress_state]
  · split
    · split
      · split
        · next hretry =>
          right
          refine ⟨?_, ?_, should_retry_agent_lt _ _ hretry⟩
          · simp [log_progress_state, logErrorIssues_eq]
          · simp [log_progress_state, logErrorIssues_eq]
        · left; simp [seFinish, log_progress_state]
      · left
        split
        · simp [seFinish, log_progress_state]
        · simp [seFinish, log_progress_state]
    · left; simp [seFinish, log_progress_state]

/-- Retry-ledger effect of one `business_logic_agent` invocation. -/
lemma business_logic_retry_counts (o : GenOutcome) (s : BuilderState) :
    (business_logic_agent o s).retry_counts = s.retry_counts
    ∨ ((business_logic_agent o s).needs_correction = true
       ∧ (business_logic_agent o s).retry_counts =
           setRC s.retry_counts "business_logic" (getRC s.retry_counts "business_logic" + 1)
       ∧ getRC s.retry_counts "business_logic" < 3) := by
  unfold business_logic_agent
  dsimp only
  split
  · left; simp [log_progress_state]
  · split
    · split
      · split
        · next hretry =>
          right
          refine ⟨?_, ?_, should_retry_agent_lt _ _ hretry⟩
          · simp [log_progress_state, logErrorIssues_eq]
          · simp [log_progress_state, logErrorIssues_eq]
        · left; simp [blFinish, log_progress_state]
      · left
        split
        · simp [blFinish, log_progress_state]
        · simp [blFinish, log_progress_state]
    · left; simp [blFinish, log_progress_state]

/-- Retry-ledger effect of the core of `fiori_ui_agent`. -/
lemma fioMain_retry_counts (o : FioriOutcome) (s : BuilderState) :
    (fioMain o s).retry_counts = s.retry_counts
    ∨ ((fioMain o s).needs_correction = true
       ∧ (fioMain o s).retry_counts =
           setRC s.retry_counts "fiori_ui" (getRC s.retry_counts "fiori_ui" + 1)
       ∧ getRC s.retry_counts "fiori_ui" < 3) := by
  unfold fioMain
  dsimp only
  split
  · split
    · split
      · next hretry =>
        right
        refine ⟨?_, ?_, should_retry_agent_lt _ _ hretry⟩
        · simp [log_progress_state, logErrorIssues_eq]
        · simp [log_progress_state, logErrorIssues_eq]
      · left; simp [fioFinish, log_progress_state]
    · left
      split
      · simp [fioFinish, log_progress_state]
      · simp [fioFinish, log_progress_state]
  · left; simp [fioFinish, log_progress_state]

/-- Retry-ledger effect of one `fiori_ui_agent` invocation. -/
lemma fiori_ui_retry_counts (o : FioriOutcome) (s : BuilderState) :
    (fiori_ui_agent o s).retry_counts = s.retry_counts
    ∨ ((fiori_ui_agent o s).needs_correction = true
       ∧ (fiori_ui_agent o s).retry_counts =
           setRC s.retry_counts "fiori_ui" (getRC s.retry_counts "fiori_ui" + 1)
       ∧ getRC s.retry_counts "fiori_ui" < 3) := by
  unfold fiori_ui_agent
  dsimp only
  split
  · split
    · left; simp [log_progress_state]
    · exact fioMain_retry_counts o _
  · exact fioMain_retry_counts o _

/-- Retry-ledger effect of one `deployment_agent` invocation. -/
lemma deployment_retry_counts (o : DepOutcome) (s : BuilderState) :
    (deployment_agent o s).retry_counts = s.retry_counts
    ∨ ((deployment_agent o s).needs_correction = true
       ∧ (deployment_agent o s).retry_counts =
           setRC s.retry_counts "deployment" (getRC s.retry_counts "deployment" + 1)
       ∧ getRC s.retry_counts "deployment" < 3) := by
  unfold deployment_agent
  dsimp only
  split
  · split
    · split
      · next hretry =>
        right
        refine ⟨?_, ?_, should_retry_agent_lt _ _ hretry⟩
        · simp [depRetry, log_progress_state]
        · simp [depRetry, log_progress_state]
      · split
        · split
          · next hretry =>
            right
            refine ⟨?_, ?_, should_retry_agent_lt _ _ hretry⟩
            · simp [depRetry, log_progress_state]
            · simp [depRetry, log_progress_state]
          · left; simp [depFinish, log_progress_state]
        · left; simp [depFinish, log_progress_state]
    · split
      · split
        · next hretry =>
          right
          refine ⟨?_, ?_, should_retry_agent_lt _ _ hretry⟩
          · simp [depRetry, log_progress_state]
          · simp [depRetry, log_progress_state]
        · left; simp [depFinish, log_progress_state]
      · split
        · split
          · left; simp [depFinish, log_progress_state]
          · left; simp [depFinish, log_progress_state]
        · left; simp [depFinish, log_progress_state]
  · left; simp [depFinish, log_progress_state]

/-- `requirements_agent` never touches the retry ledger or the retry
flag. -/
lemma requirements_retry_counts (o : ReqStep2Outcome) (s : BuilderState) :
    (requirements_agent o s).retry_counts = s.retry_counts
    ∧ (requirements_agent o s).needs_correction = s.needs_correction := by
  unfold requirements_agent
  dsimp only
  split
  · simp [log_progress_state]
  · constructor <;> (split <;> simp [log_progress_state])

/-- `security_agent` never touches the retry ledger or the retry flag. -/
lemma security_retry_counts (o : GenOutcome) (s : BuilderState) :
    (security_agent o s).retry_counts = s.retry_counts
    ∧ (security_agent o s).needs_correction = s.needs_correction := by
  unfold security_agent
  constructor <;> simp [log_progress_state]

/-- `extension_agent` never touches the retry ledger or the retry flag. -/
lemma extension_retry_counts (o : GenOutcome) (s : BuilderState) :
    (extension_agent o s).retry_counts = s.retry_counts
    ∧ (extension_agent o s).needs_correction = s.needs_correction := by
  unfold extension_agent
  constructor <;> simp [log_progress_state]

/-- `validation_agent` never touches the retry ledger or the retry
flag. -/
lemma validation_retry_counts (o : ValOutcome) (s : BuilderState) :
    (validation_agent o s).retry_counts = s.retry_counts
    ∧ (validation_agent o s).needs_correction = s.needs_correction := by
  unfold validation_agent
  dsimp only
  constructor <;> (split <;> simp [log_progress_state])

/-- Driver-level retry-ledger step property: one stage invocation leaves
the ledger unchanged or bumps the stage's own counter by one while
deciding a retry, and only when the counter was still below the bound. -/
lemma stepStage_retry_counts (os : OracleStreams) (st : Stage) (k : Nat) (s : BuilderState) :
    (stepStage os st k s).retry_counts = s.retry_counts
    ∨ ((stepStage os st k s).needs_correction = true
       ∧ (stepStage os st k s).retry_counts =
           setRC s.retry_counts st.stageName (getRC s.retry_counts st.stageName + 1)
       ∧ getRC s.retry_counts st.stageName < 3) := by
  cases st with
  | requirements => exact Or.inl (requirements_retry_counts os.req s).1
  | data_modeling => exact data_modeling_retry_counts (os.dm k) s
  | service_exposure => exact service_exposure_retry_counts (os.se k) s
  | business_logic => exact business_logic_retry_counts (os.bl k) s
  | fiori_ui => exact fiori_ui_retry_counts (os.fio k) s
  | security => exact Or.inl (security_retry_counts os.sec s).1
  | extension => exact Or.inl (extension_retry_counts os.ext s).1
  | deployment => exact deployment_retry_counts (os.dep k) s
  | validation => exact Or.inl (validation_retry_counts os.val s).1

/-- One stage invocation preserves the ledger bound. -/
lemma stepStage_rc_bound (os : OracleStreams) (st : Stage) (k : Nat) (s : BuilderState)
    (h : ∀ n, getRC s.retry_counts n ≤ 3) :
    ∀ n, getRC (stepStage os st k s).retry_counts n ≤ 3 := by
  intro n
  rcases stepStage_retry_counts os st k s with h1 | ⟨_, h2, h3⟩
  · rw [h1]; exact h n
  · rw [h2, getRC_setRC]
    split
    · omega
    · exact h n

/-- The driver preserves the ledger bound from any stage onward. -/
lemma runFrom_rc_bound (os : OracleStreams) (fuel : Nat) :
    ∀ (st : Stage) (k : Nat) (s sf : BuilderState), runFrom os fuel st k s = some sf →
      (∀ n, getRC s.retry_counts n ≤ 3) → ∀ n, getRC sf.retry_counts n ≤ 3 := by
  induction fuel with
  | zero => intro st k s sf h; simp [runFrom] at h
  | succ fuel ih =>
    intro st k s sf h hb
    unfold runFrom at h
    dsimp only at h
    split at h
    · injection h with h2
      subst h2
      exact stepStage_rc_bound os st k s hb
    · exact ih _ _ _ _ h (stepStage_rc_bound os st k s hb)

/-- `requirements_agent` never writes `generation_status`. -/
lemma requirements_generation_status (o : ReqStep2Outcome) (s : BuilderState) :
    (requirements_agent o s).generation_status = s.generation_status := by
  unfold requirements_agent
  dsimp only
  split
  · simp [log_progress_state]
  · split <;> simp [log_progress_state]

/-- `requirements_agent` replaces `validation_errors` with its own
errors list (early exit or full run), independent of the incoming
list. -/
lemma requirements_validation_errors (o : ReqStep2Outcome) (s : BuilderState) :
    (requirements_agent o s).validation_errors = validate_project_name s.project_name
    ∨ (requirements_agent o s).validation_errors =
        validate_project_name s.project_name ++ o.extra_errors ++ validate_entities o.entities := by
  unfold requirements_agent
  dsimp only
  split
  · left; simp [log_progress_state]
  · right; split <;> simp [log_progress_state]

/-- One `data_modeling_agent` invocation only appends to
`validation_errors`. -/
lemma data_modeling_validation_errors_mono (o : GenOutcome) (s : BuilderState) :
    s.validation_errors <+: (data_modeling_agent o s).validation_errors := by
  unfold data_modeling_agent
  dsimp only
  split
  · simp only [log_progress_state]
    exact List.prefix_append _ _
  · split
    · split
      · split
        · simp only [log_progress_state, logErrorIssues_eq]
          exact List.prefix_refl _
        · simp only [dmFinish, log_progress_state]
          exact List.prefix_append _ _
      · split
        · simp only [dmFinish, log_progress_state]
          exact List.prefix_append _ _
        · simp only [dmFinish, log_progress_state]
          exact List.prefix_append _ _
    · simp only [dmFinish, log_progress_state]
      exact List.prefix_append _ _

/-- One `service_exposure_agent` invocation only appends to
`validation_errors`. -/
lemma service_exposure_validation_errors_mono (o : GenOutcome) (s : BuilderState) :
    s.validation_errors <+: (service_exposure_agent o s).validation_errors := by
  unfold service_exposure_agent
  dsimp only
  split
  · simp only [log_progress_state]
    exact List.prefix_append _ _
  · split
    · split
      · split
        · simp only [log_progress_state, logErrorIssues_eq]
          exact List.prefix_refl _
        · simp only [seFinish, log_progress_state]
          exact List.prefix_append _ _
      · split
        · simp only [seFinish, log_progress_state]
          exact List.prefix_append _ _
        · simp only [seFinish, log_progress_state]
          exact List.prefix_append _ _
    · simp only [seFinish, log_progress_state]
      exact List.prefix_append _ _

/-- One `business_logic_agent` invocation only appends to
`validation_errors`. -/
lemma business_logic_validation_errors_mono (o : GenOutcome) (s : BuilderState) :
    s.validation_errors <+: (business_logic_agent o s).validation_errors := by
  unfold business_logic_agent
  dsimp only
  split
  · simp only [log_progress_state]
    exact List.prefix_append _ _
  · split
    · split
      · split
        · simp only [log_progress_state, logErrorIssues_eq]
          exact List.prefix_refl _
        · simp only [blFinish, log_progress_state]
          exact List.prefix_append _ _
      · split
        · simp only [blFinish, log_progress_state]
          exact List.prefix_append _ _
        · simp only [blFinish, log_progress_state]
          exact List.prefix_append _ _
    · simp only [blFinish, log_progress_state]
      exact List.prefix_append _ _

/-- The fiori core only appends to `validation_errors`. -/
lemma fioMain_validation_errors_mono (o : FioriOutcome) (s : BuilderState) :
    s.validation_errors <+: (fioMain o s).validation_errors := by
  unfold fioMain
  dsimp only
  split
  · split
    · split
      · simp only [log_progress_state, logErrorIssues_eq]
        exact List.prefix_refl _
      · simp only [fioFinish, log_progress_state]
        exact List.prefix_append _ _
    · split
      · simp only [fioFinish, log_progress_state]
        exact List.prefix_append _ _
      · simp only [fioFinish, log_progress_state]
        exact List.prefix_append _ _
  · simp only [fioFinish, log_progress_state]
    exact List.prefix_append _ _

/-- One `fiori_ui_agent` invocation only appends to
`validation_errors`. -/
lemma fiori_ui_validation_errors_mono (o : FioriOutcome) (s : BuilderState) :
    s.validation_errors <+: (fiori_ui_agent o s).validation_errors := by
  unfold fiori_ui_agent
  dsimp only
  split
  · split
    · simp only [log_progress_state]
      exact List.prefix_append _ _
    · refine List.IsPrefix.trans ?_ (fioMain_validation_errors_mono o _)
      exact List.prefix_refl _
  · refine List.IsPrefix.trans ?_ (fioMain_validation_errors_mono o _)
    exact List.prefix_refl _

/-- One `security_agent` invocation only appends to
`validation_errors`. -/
lemma security_validation_errors_mono (o : GenOutcome) (s : BuilderState) :
    s.validation_errors <+: (security_agent o s).validation_errors := by
  unfold security_agent
  simp only [log_progress_state]
  exact List.prefix_append _ _

/-- One `extension_agent` invocation only appends to
`validation_errors`. -/
lemma extension_validation_errors_mono (o : GenOutcome) (s : BuilderState) :
    s.validation_errors <+: (extension_agent o s).validation_errors := by
  unfold extension_agent
  simp only [log_progress_state]
  exact List.prefix_append _ _

/-- One `deployment_agent` invocation only appends to
`validation_errors`. -/
lemma deployment_validation_errors_mono (o : DepOutcome) (s : BuilderState) :
    s.validation_errors <+: (deployment_agent o s).validation_errors := by
  unfold deployment_agent
  dsimp only
  split
  · split
    · split
      · simp only [depRetry, log_progress_state]
        exact List.prefix_refl _
      · split
        · split
          · simp only [depRetry, log_progress_state]
            exact List.prefix_refl _
          · simp only [depFinish, log_progress_state]
            exact List.prefix_append _ _
        · simp only [depFinish, log_progress_state]
          exact List.prefix_append _ _
    · split
      · split
        · simp only [depRetry, log_progress_state]
          exact List.prefix_refl _
        · simp only [depFinish, log_progress_state]
          exact List.prefix_append _ _
      · split
        · split
          · simp only [depFinish, log_progress_state]
            exact List.prefix_append _ _
          · simp only [depFinish, log_progress_state]
            exact List.prefix_append _ _
        · simp only [depFinish, log_progress_state]
          exact List.prefix_append _ _
  · simp only [depFinish, log_progress_state]
    exact List.prefix_append _ _

/-- One `validation_agent` invocation only appends to
`validation_errors`. -/
lemma validation_validation_errors_mono (o : ValOutcome) (s : BuilderState) :
    s.validation_errors <+: (validation_agent o s).validation_errors := by
  unfold validation_agent
  dsimp only
  split <;>
    · simp only [log_progress_state]
      exact List.prefix_append _ _

/-- A list of Warning-severity issues contains no Error-severity one. -/
lemma any_error_false_of_warning (l : List ValidationIssue)
    (h : ∀ i ∈ l, i.severity = ValidationSeverity.warning) :
    (l.any (fun i => i.severity == ValidationSeverity.error)) = false := by
  rw [List.any_eq_false]
  intro i hi
  simp [h i hi]

/-! ## The claims -/

/-- C10: for every content string, `validate_cds` reports errors exactly
when the content contains no substring matching `entity`, whitespace and
an identifier; its `is_valid` field is the negation of `has_errors`; the
only Error-severity issue it can emit is NO_ENTITIES; and every issue
other than NO_ENTITIES has Warning severity. -/
theorem C10_validate_cds_error_characterisation (content path : String) :
    ((validate_cds content path).has_errors = true ↔ searchEntityWord content.data = false)
    ∧ (validate_cds content path).is_valid = !(validate_cds content path).has_errors
    ∧ (∀ i ∈ (validate_cds content path).issues,
        i.severity = ValidationSeverity.error → i.code = some "NO_ENTITIES")
    ∧ (∀ i ∈ (validate_cds content path).issues,
        i.code ≠ some "NO_ENTITIES" → i.severity = ValidationSeverity.warning) := by
  have hL := cdsLoopIssues_warning (splitLines content.data)
  refine ⟨?_, rfl, ?_, ?_⟩
  · show ((validate_cds content path).issues.any
        (fun i => i.severity == ValidationSeverity.error) = true ↔ _)
    unfold validate_cds
    dsimp only
    rw [List.any_append, List.any_append]
    rw [any_error_false_of_warning _ hL]
    constructor
    · intro h
      rcases Bool.or_eq_true_iff.mp h with h | h
      · rcases Bool.or_eq_true_iff.mp h with h | h
        · exact absurd h (by simp)
        · split at h
          · simp at h
          · simp at h
      · split at h
        · cases hs : searchEntityWord content.data
          · rfl
          · rename_i hcond
            simp [hs] at hcond
        · simp at h
    · intro h
      apply Bool.or_eq_true_iff.mpr
      right
      rw [if_pos (by simp [h])]
      decide
  · intro i hi herr
    unfold validate_cds at hi
    dsimp only at hi
    rw [List.mem_append, List.mem_append] at hi
    rcases hi with (hi | hi) | hi
    · exact absurd herr (by simp [hL i hi])
    · split at hi
      · simp only [List.mem_singleton] at hi
        subst hi
        simp at herr
      · simp at hi
    · split at hi
      · simp only [List.mem_singleton] at hi
        subst hi
        rfl
      · simp at hi
  · intro i hi hcode
    unfold validate_cds at hi
    dsimp only at hi
    rw [List.mem_append, List.mem_append] at hi
    rcases hi with (hi | hi) | hi
    · exact hL i hi
    · split at hi
      · simp only [List.mem_singleton] at hi
        subst hi
        rfl
      · simp at hi
    · split at hi
      · simp only [List.mem_singleton] at hi
        subst hi
        simp at hcode
      · simp at hi

/-- Witness for C10: on the content `"q"` (no entity declaration) the
validator reports errors, and its NO_ENTITIES issue is the Error. -/
theorem C10_witness :
    (validate_cds "q" "schema.cds").has_errors = true
    ∧ ({ severity := ValidationSeverity.error,
         message := "No entity definitions found in CDS schema",
         line := some 1, code := some "NO_ENTITIES" } : ValidationIssue).code =
        some "NO_ENTITIES" :=
  ⟨(C10_validate_cds_error_characterisation "q" "schema.cds").1.mpr (by decide),
   (C10_validate_cds_error_characterisation "q" "schema.cds").2.2.1 _ (by decide) (by decide)⟩

/-- C2: a stage invocation leaves the retry ledger unchanged or bumps
the stage's own counter by exactly one while deciding a retry (and only
while that counter is below MaxRetries = 3), and never decrements it;
consequently every counter is at most 3 in the final state of every
run. -/
theorem C2_retry_ledger_bounded :
    (∀ (os : OracleStreams) (st : Stage) (k : Nat) (s : BuilderState),
       (stepStage os st k s).retry_counts = s.retry_counts
       ∨ ((stepStage os st k s).needs_correction = true
          ∧ (stepStage os st k s).retry_counts =
              setRC s.retry_counts st.stageName (getRC s.retry_counts st.stageName + 1)
          ∧ getRC s.retry_counts st.stageName < 3))
    ∧ (∀ (os : OracleStreams) (fuel : Nat) (s0 sf : BuilderState),
         run_generation_workflow os fuel s0 = some sf →
         (∀ n, getRC s0.retry_counts n ≤ 3) →
         ∀ n, getRC sf.retry_counts n ≤ 3) := by
  constructor
  · exact stepStage_retry_counts
  · intro os fuel s0 sf h hb
    exact runFrom_rc_bound os fuel _ _ _ _ h hb

/-- Witness for C2: a concrete one-stage run from the initial state
keeps every counter within the bound. -/
theorem C2_witness :
    getRC ((run_generation_workflow emptyOracles 1 gateS0).getD default).retry_counts
      "data_modeling" ≤ 3 :=
  (C2_retry_ledger_bounded.2 emptyOracles 1 gateS0
      ((run_generation_workflow emptyOracles 1 gateS0).getD default)
      (by rfl) (fun n => by simp [gateS0, create_initial_state, getRC])) "data_modeling"

/-- C1 (amended): when the requirements gate ends with an unresolved
Error-severity issue, routing goes to END and no later stage runs — the
run's final state is exactly the post-requirements state — but the final
`generation_status` remains "in_progress"; it is not set to "failed" on
this path. -/
theorem C1_gate_failure_routes_to_end (os : OracleStreams) (fuel : Nat) (s0 : BuilderState)
    (h : (requirements_agent os.req
        { s0 with generation_status := "in_progress" }).validation_errors.any
          (fun e => e.severity == "error") = true) :
    run_generation_workflow os (fuel + 1) s0 =
      some (requirements_agent os.req { s0 with generation_status := "in_progress" })
    ∧ (requirements_agent os.req
        { s0 with generation_status := "in_progress" }).generation_status = "in_progress" := by
  constructor
  · unfold run_generation_workflow runFrom stepStage
    dsimp only
    rw [show route Stage.requirements
        (requirements_agent os.req { s0 with generation_status := "in_progress" }) = none from by
      unfold route should_continue_after_requirements
      simp [h]]
  · rw [requirements_generation_status]

/-- Witness for C1's amended theorem at a concrete failing run. -/
theorem C1_witness :
    run_generation_workflow emptyOracles 5 gateS0 =
      some (requirements_agent emptyOracles.req { gateS0 with generation_status := "in_progress" })
    ∧ (requirements_agent emptyOracles.req
        { gateS0 with generation_status := "in_progress" }).generation_status = "in_progress" :=
  C1_gate_failure_routes_to_end emptyOracles 4 gateS0 (by decide)

/-- Counterexample to C1 as stated: a run whose requirements stage ends
with an unresolved Error issue does route to END with no later stage in
the history, but its final `generation_status` is `"in_progress"`, not
`"failed"`. -/
theorem C1_counterexample :
    (run_generation_workflow emptyOracles 5 gateS0).isSome = true
    ∧ ((run_generation_workflow emptyOracles 5 gateS0).getD default).validation_errors.any
        (fun e => e.severity == "error") = true
    ∧ ((run_generation_workflow emptyOracles 5 gateS0).getD default).agent_history = []
    ∧ ((run_generation_workflow emptyOracles 5 gateS0).getD default).generation_status = "in_progress"
    ∧ ((run_generation_workflow emptyOracles 5 gateS0).getD default).generation_status ≠ "failed" := by
  decide

/-- Once the counter reaches the bound, the retry controller refuses. -/
lemma should_retry_agent_maxed (vr : List ValidationResult) (rc : Nat) (h : 3 ≤ rc) :
    should_retry_agent vr rc 3 = false := by
  unfold should_retry_agent
  simp [show rc ≥ 3 from h]

/-- C3 (amended): a data-modeling attempt that decides a retry appends
no `agent_history` record — it appends a `correction_history` entry
instead — and only an attempt that proceeds (no retry decided) appends
exactly one history record; the missing-prerequisite early exit appends
none.  Hence a stage retried k times contributes one record, not
k + 1. -/
theorem C3_one_history_record_per_completed_attempt (o : GenOutcome) (s : BuilderState) :
    (s.entities.isEmpty = true → (data_modeling_agent o s).agent_history = s.agent_history)
    ∧ (s.entities.isEmpty = false → (data_modeling_agent o s).needs_correction = true →
        (data_modeling_agent o s).agent_history = s.agent_history
        ∧ (data_modeling_agent o s).correction_history.length = s.correction_history.length + 1)
    ∧ (s.entities.isEmpty = false → (data_modeling_agent o s).needs_correction = false →
        (data_modeling_agent o s).agent_history.length = s.agent_history.length + 1) := by
  unfold data_modeling_agent
  dsimp only
  split
  · next hemp =>
    have hemp2 : s.entities.isEmpty = true := hemp
    exact ⟨fun _ => by simp [log_progress_state],
           fun hne _ => absurd hemp2 (by simp [hne]),
           fun hne _ => absurd hemp2 (by simp [hne])⟩
  · next hemp =>
    have hemp3 : ¬ s.entities.isEmpty = true := hemp
    split
    · split
      · split
        · refine ⟨fun hemp2 => absurd hemp2 hemp3, fun _ _ => ?_, fun _ hnc => ?_⟩
          · constructor
            · simp [log_progress_state, logErrorIssues_eq]
            · simp [log_progress_state, logErrorIssues_eq]
          · simp [log_progress_state, logErrorIssues_eq] at hnc
        · refine ⟨fun hemp2 => absurd hemp2 hemp3, fun _ hnc => ?_, fun _ _ => ?_⟩
          · simp [dmFinish, log_progress_state] at hnc
          · simp [dmFinish, log_progress_state]
      · refine ⟨fun hemp2 => absurd hemp2 hemp3, fun _ hnc => ?_, fun _ _ => ?_⟩
        · split at hnc <;> simp [dmFinish, log_progress_state] at hnc
        · split <;> simp [dmFinish, log_progress_state]
    · refine ⟨fun hemp2 => absurd hemp2 hemp3, fun _ hnc => ?_, fun _ _ => ?_⟩
      · simp [dmFinish, log_progress_state] at hnc
      · simp [dmFinish, log_progress_state]

/-- Witness for C3's amended theorem: a concrete retry-deciding attempt
appends no history record and one correction record. -/
theorem C3_witness :
    (data_modeling_agent badSchemaO oneEntityS).agent_history = oneEntityS.agent_history
    ∧ (data_modeling_agent badSchemaO oneEntityS).correction_history.length =
        oneEntityS.correction_history.length + 1 :=
  (C3_one_history_record_per_completed_attempt badSchemaO oneEntityS).2.1
    (by decide) (by decide)

/-- Counterexample to C3 as stated: this data-modeling attempt decides
a retry (the retry counter moves to 1), yet `agent_history` gains no
record, so a retried attempt does not contribute a history entry. -/
theorem C3_counterexample :
    (data_modeling_agent badSchemaO oneEntityS).needs_correction = true
    ∧ getRC (data_modeling_agent badSchemaO oneEntityS).retry_counts "data_modeling" = 1
    ∧ oneEntityS.agent_history.length = 0
    ∧ (data_modeling_agent badSchemaO oneEntityS).agent_history.length = 0 := by
  decide

/-- C4 (amended): when `business_logic_agent` decides a retry it clears
the *entire* `artifacts_srv` category — including the artifacts the
service-exposure stage appended — while the other artifact categories,
`validation_errors` and `agent_history` stay unchanged. -/
theorem C4_business_logic_retry_clears_srv (o : GenOutcome) (s : BuilderState)
    (hne : s.entities.isEmpty = false)
    (hnc : (business_logic_agent o s).needs_correction = true) :
    (business_logic_agent o s).artifacts_srv = []
    ∧ (business_logic_agent o s).artifacts_db = s.artifacts_db
    ∧ (business_logic_agent o s).artifacts_app = s.artifacts_app
    ∧ (business_logic_agent o s).validation_errors = s.validation_errors
    ∧ (business_logic_agent o s).agent_history = s.agent_history := by
  revert hnc
  unfold business_logic_agent
  dsimp only
  split
  · next hemp =>
    exact fun _ => absurd (show s.entities.isEmpty = true from hemp) (by simp [hne])
  · split
    · split
      · split
        · intro _
          refine ⟨?_, ?_, ?_, ?_, ?_⟩ <;> simp [log_progress_state, logErrorIssues_eq]
        · intro hnc
          simp [blFinish, log_progress_state] at hnc
      · split
        · intro hnc
          simp [blFinish, log_progress_state] at hnc
        · intro hnc
          simp [blFinish, log_progress_state] at hnc
    · intro hnc
      simp [blFinish, log_progress_state] at hnc

/-- Witness for C4's amended theorem at a concrete retrying attempt. -/
theorem C4_witness :
    (business_logic_agent badJsO blPriorS).artifacts_srv = []
    ∧ (business_logic_agent badJsO blPriorS).artifacts_db = blPriorS.artifacts_db :=
  ⟨(C4_business_logic_retry_clears_srv badJsO blPriorS (by decide) (by decide)).1,
   (C4_business_logic_retry_clears_srv badJsO blPriorS (by decide) (by decide)).2.1⟩

/-- Counterexample to C4 as stated: this business-logic retry erases
the artifact that the service-exposure stage had stored in
`artifacts_srv`. -/
theorem C4_counterexample :
    blPriorS.artifacts_srv ≠ []
    ∧ (business_logic_agent badJsO blPriorS).needs_correction = true
    ∧ (business_logic_agent badJsO blPriorS).artifacts_srv = [] := by
  decide

/-- C5: when a stage attempt produces Error-severity validation issues
with the retry counter already at MaxRetries = 3, the remaining Error
issues are appended to the accumulated list downgraded to Warning
severity (one entry per Error issue), the retry flag ends false (the
run proceeds), and the retry controller refuses a further retry.
Stated for the data-modeling and service-exposure stages. -/
theorem C5_maxed_out_attempt_downgrades_errors :
    (∀ (o : GenOutcome) (s : BuilderState) (art : GeneratedFile),
       s.entities.isEmpty = false →
       o.generated_files.find? (fun f => f.path == "db/schema.cds") = some art →
       o.llm_success = true →
       3 ≤ getRC s.retry_counts "data_modeling" →
       (validate_artifact_cds "db/schema.cds" art.content).any (fun r => r.has_errors) = true →
       (data_modeling_agent o s).needs_correction = false
       ∧ (data_modeling_agent o s).validation_errors =
           s.validation_errors ++ (o.gen_errors ++
             downgradedErrors "data_modeling" (validate_artifact_cds "db/schema.cds" art.content))
       ∧ (data_modeling_agent o s).retry_counts = s.retry_counts)
    ∧ (∀ (o : GenOutcome) (s : BuilderState) (art : GeneratedFile),
       s.entities.isEmpty = false →
       o.generated_files.find? (fun f => f.path == "srv/service.cds") = some art →
       o.llm_success = true →
       3 ≤ getRC s.retry_counts "service_exposure" →
       (validate_artifact_cds "srv/service.cds" art.content).any (fun r => r.has_errors) = true →
       (service_exposure_agent o s).needs_correction = false
       ∧ (service_exposure_agent o s).validation_errors =
           s.validation_errors ++ (o.gen_errors ++
             downgradedErrors "service_exposure" (validate_artifact_cds "srv/service.cds" art.content))
       ∧ (service_exposure_agent o s).retry_counts = s.retry_counts)
    ∧ (∀ (agent : String) (rs : List ValidationResult),
        (downgradedErrors agent rs).length = (errorIssues rs).length
        ∧ ∀ e ∈ downgradedErrors agent rs, e.severity = "warning")
    ∧ (∀ (vr : List ValidationResult) (rc : Nat), 3 ≤ rc →
        should_retry_agent vr rc 3 = false) := by
  refine ⟨?_, ?_, ?_, fun vr rc h => should_retry_agent_maxed vr rc h⟩
  · intro o s art hne hfind hllm hrc herr
    unfold data_modeling_agent
    dsimp only
    split
    · next hemp =>
      exact absurd (show s.entities.isEmpty = true from hemp) (by simp [hne])
    · split
      · next art2 hfind2 hllm2 =>
        have hart : art2 = art := Option.some.inj (hfind2.symm.trans hfind)
        subst hart
        split
        · split
          · next hretry =>
            simp only [log_progress_state] at hretry
            rw [should_retry_agent_maxed _ _ hrc] at hretry
            simp at hretry
          · refine ⟨?_, ?_, ?_⟩
            · simp [dmFinish, log_progress_state]
            · simp [dmFinish, log_progress_state]
            · simp [dmFinish, log_progress_state]
        · next hno => exact absurd herr hno
      · next h =>
        exact (h art hfind hllm).elim
  · intro o s art hne hfind hllm hrc herr
    unfold service_exposure_agent
    dsimp only
    split
    · next hemp =>
      exact absurd (show s.entities.isEmpty = true from hemp) (by simp [hne])
    · split
      · next art2 hfind2 hllm2 =>
        have hart : art2 = art := Option.some.inj (hfind2.symm.trans hfind)
        subst hart
        split
        · split
          · next hretry =>
            simp only [log_progress_state] at hretry
            rw [should_retry_agent_maxed _ _ hrc] at hretry
            simp at hretry
          · refine ⟨?_, ?_, ?_⟩
            · simp [seFinish, log_progress_state]
            · simp [seFinish, log_progress_state]
            · simp [seFinish, log_progress_state]
        · next hno => exact absurd herr hno
      · next h =>
        exact (h art hfind hllm).elim
  · intro agent rs
    constructor
    · simp [downgradedErrors]
    · intro e he
      simp only [downgradedErrors, List.mem_map] at he
      obtain ⟨i, _, rfl⟩ := he
      rfl

/-- Witness for C5 at a concrete maxed-out data-modeling attempt. -/
theorem C5_witness :
    (data_modeling_agent badSchemaO dmMaxedS).needs_correction = false
    ∧ (data_modeling_agent badSchemaO dmMaxedS).retry_counts = dmMaxedS.retry_counts :=
  ⟨(C5_maxed_out_attempt_downgrades_errors.1 badSchemaO dmMaxedS
      { path := "db/schema.cds", content := "x", file_type := "cds" }
      (by decide) (by decide) (by decide) (by decide) (by decide)).1,
   (C5_maxed_out_attempt_downgrades_errors.1 badSchemaO dmMaxedS
      { path := "db/schema.cds", content := "x", file_type := "cds" }
      (by decide) (by decide) (by decide) (by decide) (by decide)).2.2⟩

/-- C6 (amended): when the workflow raises, the exception handler marks
the run failed and appends exactly one synthetic Error-severity issue —
but its code is WORKFLOW_ERROR, not FATAL. -/
theorem C6_fatal_error_recorded (s : BuilderState) (msg : String) :
    (workflow_exception_state s msg).generation_status = "failed"
    ∧ (workflow_exception_state s msg).validation_errors =
        s.validation_errors ++
          [{ agent := "workflow", code := "WORKFLOW_ERROR", message := msg,
             field := none, severity := "error" }] :=
  ⟨rfl, rfl⟩

/-- Counterexample to C6 as stated: the synthetic issue recorded for a
fatal workflow error carries code WORKFLOW_ERROR; no issue with code
FATAL exists in the resulting state. -/
theorem C6_counterexample :
    (workflow_exception_state default "boom").generation_status = "failed"
    ∧ (workflow_exception_state default "boom").validation_errors.length = 1
    ∧ ((workflow_exception_state default "boom").validation_errors.headD default).severity = "error"
    ∧ ((workflow_exception_state default "boom").validation_errors.headD default).code = "WORKFLOW_ERROR"
    ∧ (workflow_exception_state default "boom").validation_errors.all
        (fun e => e.code != "FATAL") = true := by
  decide

/-- C7 (amended): `create_progress_queue` always succeeds; it registers
a fresh empty queue under the session id, silently replacing any queue
already registered there, and leaves every other session's queue
untouched. -/
theorem C7_open_replaces_existing_channel (qs : QueueRegistry) (sid : String) :
    getQueue (create_progress_queue qs sid).1 sid = some []
    ∧ (create_progress_queue qs sid).2 = []
    ∧ ∀ k, k ≠ sid → getQueue (create_progress_queue qs sid).1 k = getQueue qs k := by
  refine ⟨?_, rfl, ?_⟩
  · unfold create_progress_queue
    rw [getQueue_setQueue]
    simp
  · intro k hk
    unfold create_progress_queue
    rw [getQueue_setQueue]
    simp [hk]

/-- Witness for C7's amended theorem at a concrete registry. -/
theorem C7_witness :
    getQueue (create_progress_queue [("run1", [{ etype := "agent_log" }])] "run1").1 "run1" =
      some []
    ∧ getQueue (create_progress_queue [("run1", [{ etype := "agent_log" }])] "run1").1 "run2" =
        getQueue [("run1", [({ etype := "agent_log" } : ProgressEvent)])] "run2" :=
  ⟨(C7_open_replaces_existing_channel [("run1", [{ etype := "agent_log" }])] "run1").1,
   (C7_open_replaces_existing_channel [("run1", [{ etype := "agent_log" }])] "run1").2.2
     "run2" (by decide)⟩

/-- Counterexample to C7 as stated: opening a channel for a run that
already has one does not fail — it silently replaces the existing
channel (the pending event disappears). -/
theorem C7_counterexample :
    getQueue [("run1", [({ etype := "agent_log" } : ProgressEvent)])] "run1" =
      some [{ etype := "agent_log" }]
    ∧ getQueue (create_progress_queue
        [("run1", [({ etype := "agent_log" } : ProgressEvent)])] "run1").1 "run1" = some []
    ∧ some [({ etype := "agent_log" } : ProgressEvent)] ≠ some ([] : List ProgressEvent) := by
  decide

/-- C8 (amended): every agent except the requirements agent only appends
to `validation_errors` (the incoming list is a prefix of the outgoing
one); the requirements agent instead *replaces* the list with its own
errors, so issues already in the state when it runs are dropped. -/
theorem C8_issue_list_append_only_except_requirements :
    (∀ (o : ReqStep2Outcome) (s : BuilderState),
       (requirements_agent o s).validation_errors = validate_project_name s.project_name
       ∨ (requirements_agent o s).validation_errors =
           validate_project_name s.project_name ++ o.extra_errors ++ validate_entities o.entities)
    ∧ (∀ (o : GenOutcome) (s : BuilderState),
        s.validation_errors <+: (data_modeling_agent o s).validation_errors)
    ∧ (∀ (o : GenOutcome) (s : BuilderState),
        s.validation_errors <+: (service_exposure_agent o s).validation_errors)
    ∧ (∀ (o : GenOutcome) (s : BuilderState),
        s.validation_errors <+: (business_logic_agent o s).validation_errors)
    ∧ (∀ (o : FioriOutcome) (s : BuilderState),
        s.validation_errors <+: (fiori_ui_agent o s).validation_errors)
    ∧ (∀ (o : GenOutcome) (s : BuilderState),
        s.validation_errors <+: (security_agent o s).validation_errors)
    ∧ (∀ (o : GenOutcome) (s : BuilderState),
        s.validation_errors <+: (extension_agent o s).validation_errors)
    ∧ (∀ (o : DepOutcome) (s : BuilderState),
        s.validation_errors <+: (deployment_agent o s).validation_errors)
    ∧ (∀ (o : ValOutcome) (s : BuilderState),
        s.validation_errors <+: (validation_agent o s).validation_errors) :=
  ⟨requirements_validation_errors,
   data_modeling_validation_errors_mono,
   service_exposure_validation_errors_mono,
   business_logic_validation_errors_mono,
   fiori_ui_validation_errors_mono,
   security_validation_errors_mono,
   extension_validation_errors_mono,
   deployment_validation_errors_mono,
   validation_validation_errors_mono⟩

/-- Counterexample to C8 as stated: the requirements agent, invoked on a
state already carrying a recorded issue, replaces `validation_errors`
wholesale — the incoming list is not a prefix of the outgoing one and
the previously recorded issue is gone. -/
theorem C8_counterexample :
    priorIssueS.validation_errors.length = 1
    ∧ (requirements_agent emptyOracles.req priorIssueS).validation_errors.all
        (fun e => e.code != "OLD_ISSUE") = true
    ∧ ¬ (priorIssueS.validation_errors <+:
          (requirements_agent emptyOracles.req priorIssueS).validation_errors) := by
  refine ⟨by decide, by decide, ?_⟩
  intro h
  have hmem : priorIssueS.validation_errors.headD default ∈
      (requirements_agent emptyOracles.req priorIssueS).validation_errors :=
    h.sublist.subset (by decide)
  revert hmem
  decide

/-- C9 (amended): `push_event` leaves the registry unchanged and drops
the event when no queue is registered for the session, and appends it to
the registered queue otherwise; `log_progress` always appends the
message to the state's `current_logs` — also when no queue is registered
— and leaves the registry unchanged in that case. -/
theorem C9_publish_drops_or_enqueues :
    (∀ (qs : QueueRegistry) (sid : String) (ev : ProgressEvent),
       getQueue qs sid = none → push_event qs sid ev = qs)
    ∧ (∀ (qs : QueueRegistry) (sid : String) (ev : ProgressEvent) (q : List ProgressEvent),
        getQueue qs sid = some q → push_event qs sid ev = setQueue qs sid (q ++ [ev]))
    ∧ (∀ (qs : QueueRegistry) (s : BuilderState) (msg : String),
        (log_progress qs s msg).2 = { s with current_logs := s.current_logs ++ [msg] })
    ∧ (∀ (qs : QueueRegistry) (s : BuilderState) (msg : String),
        getQueue qs s.session_id = none → (log_progress qs s msg).1 = qs) := by
  refine ⟨?_, ?_, ?_, ?_⟩
  · intro qs sid ev h
    unfold push_event
    rw [h]
  · intro qs sid ev q h
    unfold push_event
    rw [h]
  · intro qs s msg
    unfold log_progress
    dsimp only
    split
    · rfl
    · rfl
  · intro qs s msg h
    unfold log_progress
    dsimp only
    rw [show getQueue qs (log_progress_state s msg).session_id = none from h]

/-- Witness for C9's amended theorem at a concrete empty registry. -/
theorem C9_witness :
    push_event [] "s1" { etype := "agent_log" } = []
    ∧ (log_progress [] { session_id := "s1" } "hello").1 = [] :=
  ⟨C9_publish_drops_or_enqueues.1 [] "s1" { etype := "agent_log" } (by decide),
   C9_publish_drops_or_enqueues.2.2.2 [] { session_id := "s1" } "hello" (by decide)⟩

/-- Counterexample to C9 as stated: with no channel registered,
`log_progress` still changes the workflow state — the message is
appended to `current_logs`. -/
theorem C9_counterexample :
    getQueue [] "s1" = none
    ∧ (log_progress [] { session_id := "s1" } "hello").2.current_logs = ["hello"]
    ∧ (log_progress [] { session_id := "s1" } "hello").2 ≠
        ({ session_id := "s1" } : BuilderState) := by
  decide
